import Mathlib

/-!
Verification of the knowledge-driven geometry-node graph synthesis engine
(`generator/context_builder.py` and `generator/generate.py`).

The Python source is shallowly embedded: dictionaries become association
lists (Python 3.7+ dicts preserve insertion order, which the code relies
on for deterministic iteration), Python's stable `list.sort` becomes a
stable insertion sort, and the single impure input of the pipeline
(`datetime.now()` inside `generate_script`) becomes an explicit
`timestamp` argument.  Property/default values (arbitrary JSON scalars in
the source) are embedded as the inductive `PyVal`.
-/

set_option maxRecDepth 4096

/-- Substring containment, embedding Python's `needle in hay` on strings.
The check is performed on the underlying character lists. -/
def strContains (hay needle : String) : Bool :=
  hay.toList.tails.any (fun t => needle.toList.isPrefixOf t)

/-- Lower-casing of a string, embedding Python's `str.lower` (ASCII range,
which is all the KB identifiers use). -/
def lowerStr (s : String) : String :=
  ⟨s.toList.map Char.toLower⟩

/-- Removal of space characters, embedding Python's `str.replace(" ", "")`. -/
def stripSpaces (s : String) : String :=
  ⟨s.toList.filter (fun c => c ≠ ' ')⟩

/-- Embedded Python value, covering the JSON scalars and lists that occur
as property values and socket defaults in the KB and the patterns.
Floats are carried by their literal text (their numeric value is never
computed on, only re-printed). -/
inductive PyVal where
  | pstr (s : String)
  | pint (n : Int)
  | pfloat (lit : String)
  | pbool (b : Bool)
  | plist (elems : List PyVal)

mutual

/-- Embedding of Python's `repr` for the values above (`repr` is applied to
property values when the generator prints assignments). -/
def pyRepr : PyVal → String
  | .pstr s => "\x27" ++ s ++ "\x27"
  | .pint n => toString n
  | .pfloat lit => lit
  | .pbool b => if b then "True" else "False"
  | .plist elems => "[" ++ String.intercalate ", " (pyReprList elems) ++ "]"

/-- Helper for `pyRepr` on the elements of an embedded list value. -/
def pyReprList : List PyVal → List String
  | [] => []
  | v :: vs => pyRepr v :: pyReprList vs

end

/-- Embedding of Python's `str(tuple(v))` used when a list-valued socket
default is printed (a one-element tuple prints a trailing comma). -/
def pyTupleStr (elems : List PyVal) : String :=
  match elems with
  | [e] => "(" ++ pyRepr e ++ ",)"
  | _ => "(" ++ String.intercalate ", " (elems.map pyRepr) ++ ")"

/-- Source `generate.py`, `_types_compatible`: socket-type compatibility
based on Blender's implicit conversions.  Equal types are compatible, and
any two members of the numeric set are compatible; everything else is not. -/
def _types_compatible (out_type in_type : String) : Bool :=
  if out_type = in_type then true
  else
    let numeric := ["BOOLEAN", "INT", "VALUE", "FLOAT", "RGBA", "VECTOR"]
    if numeric.contains out_type && numeric.contains in_type then true
    else false

/-! ## Knowledge-base data model (`context_builder.py`) -/

/-- A port (socket) of an operator: name and declared type.  The source
reads sockets as dicts with `"name"` and `"type"` keys. -/
structure Socket where
  name : String
  type : String
deriving DecidableEq

/-- A settable property of an operator profile: either an enumerated
property carrying its legal option identifiers (the source reads
`pinfo["enum_items"]`, compressing dict items to their `identifier`), or a
plain non-enumerated property. -/
inductive PropInfo where
  | enum (enum_items : List String)
  | plain
deriving DecidableEq

/-- An operator profile as stored under `kb["nodes"]`.  Fields the source
accesses with `profile.get(key, default)` are `Option`s, with the default
applied at the use site. -/
structure Profile where
  name : String
  inputs : List Socket
  outputs : List Socket
  role : Option String
  domain : Option String
  observed_behavior : Option String
  properties : List (String × PropInfo)
  property_variations : Option String
deriving DecidableEq

/-- A compatibility edge from `kb["connections"]["valid_connections"]`
(the source only reads the `"from"` and `"to"` keys; `from` is a Lean
keyword, so the fields are named `src`/`dst`). -/
structure Conn where
  src : String
  dst : String
deriving DecidableEq

/-- A named type group from `kb["connections"]["type_groups"]`. -/
structure TypeGroup where
  types : List String
  note : String

/-- One node of a stored exemplar pattern (`pattern["nodes_used"]`). -/
structure PatNode where
  type : String
  name : Option String
  properties : List (String × PyVal)
  input_defaults : List (String × PyVal)

/-- One edge of a stored exemplar pattern (`pattern["links"]`). -/
structure PatLink where
  from_node : String
  from_socket : String
  to_node : String
  to_socket : String
deriving DecidableEq

/-- A verified exemplar pattern from `kb["patterns"]`. -/
structure Pattern where
  name : String
  description : String
  nodes_used : List PatNode
  links : List PatLink

/-- The knowledge-base document.  `nodes` is an insertion-ordered
association list, embedding the Python dict.  The advisory free-form
`rules` sections are carried as opaque text. -/
structure KB where
  nodes : List (String × Profile)
  valid_connections : List Conn
  type_groups : List (String × TypeGroup)
  patterns : List Pattern
  pitfalls : List String
  tree_creation : List (String × String)
  metadata_blender_version : Option String

/-- Dict lookup `kb["nodes"].get(nid)` (keys are unique, so first match). -/
def lookupNode (kb : KB) (nid : String) : Option Profile :=
  (kb.nodes.find? (fun p => p.1 == nid)).map (·.2)

/-! ## Term extraction (`extract_search_terms`) -/

/-- Source `context_builder.py`, `TERM_MAP`: map from common user terms to
KB node search terms, in literal order. -/
def TERM_MAP : List (String × List String) := [
  ("scatter", ["distribute", "instance", "points"]),
  ("rocks", ["instance", "ico sphere", "cube"]),
  ("trees", ["instance", "collection"]),
  ("random", ["random", "noise", "distribute"]),
  ("smooth", ["shade smooth", "subdivide", "subdivision"]),
  ("subdivide", ["subdivide", "subdivision"]),
  ("boolean", ["boolean", "intersect", "difference", "union"]),
  ("subtract", ["boolean", "difference"]),
  ("cut", ["boolean", "difference"]),
  ("merge", ["join", "merge", "boolean union"]),
  ("deform", ["set position", "noise", "displacement"]),
  ("displace", ["set position", "noise texture", "displacement"]),
  ("noise", ["noise", "random"]),
  ("extrude", ["extrude"]),
  ("array", ["instance", "duplicate"]),
  ("duplicate", ["duplicate", "instance"]),
  ("curve", ["curve", "bezier", "spline"]),
  ("sweep", ["curve to mesh", "profile"]),
  ("pipe", ["curve to mesh", "curve circle"]),
  ("text", ["string to curves"]),
  ("particles", ["distribute", "instance", "points"]),
  ("hair", ["distribute", "curve", "interpolate"]),
  ("color", ["material", "color", "rgba"]),
  ("material", ["material", "set material"]),
  ("volume", ["volume", "mesh to volume"]),
  ("grid", ["grid", "mesh grid"]),
  ("sphere", ["uv sphere", "ico sphere"]),
  ("cylinder", ["cylinder"]),
  ("cone", ["cone"]),
  ("circle", ["circle"]),
  ("triangulate", ["triangulate"]),
  ("flip", ["flip faces"]),
  ("scale", ["scale", "transform"]),
  ("rotate", ["rotate", "transform"]),
  ("move", ["translate", "set position", "transform"]),
  ("join", ["join geometry"]),
  ("separate", ["separate", "delete"]),
  ("delete", ["delete geometry"]),
  ("proximity", ["proximity"]),
  ("raycast", ["raycast"]),
  ("fill", ["fill curve"]),
  ("convex", ["convex hull"]),
  ("bounding", ["bounding box"])]

/-- A character in the regex class `[a-z]`. -/
def isLowerAZ (c : Char) : Bool := 'a' ≤ c && c ≤ 'z'

/-- Maximal runs of `[a-z]` characters, embedding
`re.findall(r'[a-z]+', desc_lower)`.  `acc` holds the current run
reversed. -/
def wordRunsAux : List Char → List Char → List (List Char)
  | [], acc => if acc.isEmpty then [] else [acc.reverse]
  | c :: cs, acc =>
    if isLowerAZ c then wordRunsAux cs (c :: acc)
    else if acc.isEmpty then wordRunsAux cs [] else acc.reverse :: wordRunsAux cs []

/-- The word tokens of a (lower-cased) description. -/
def findWords (desc_lower : String) : List String :=
  (wordRunsAux desc_lower.toList []).map (fun cs => ⟨cs⟩)

/-- Insert into a deduplicated list, embedding Python `set.add` (the list
enumerates the set in insertion order; all uses are order-insensitive). -/
def insertDedup (ts : List String) (t : String) : List String :=
  if ts.contains t then ts else ts ++ [t]

/-- Embedding of Python `set.update` with a list of new elements. -/
def insertDedupAll (ts : List String) (new : List String) : List String :=
  new.foldl insertDedup ts

/-- Source `context_builder.py`, `extract_search_terms`: tokenize the
lower-cased description into `[a-z]+` runs; each word contributes its
`TERM_MAP` synonyms (if any) and itself; independently every `TERM_MAP`
phrase occurring in the text contributes its synonyms.  The result models
the Python `set` of terms as a deduplicated list. -/
def extract_search_terms (description : String) : List String :=
  let desc_lower := lowerStr description
  let words := findWords desc_lower
  let terms := words.foldl (fun ts word =>
    let ts := match TERM_MAP.find? (fun p => p.1 == word) with
      | some p => insertDedupAll ts p.2
      | none => ts
    insertDedup ts word) []
  TERM_MAP.foldl (fun ts p =>
    if strContains desc_lower p.1 then insertDedupAll ts p.2 else ts) terms

/-! ## Candidate retrieval (`search_nodes`, `search_patterns`) -/

/-- Stable insertion (descending by `key`): `x` is placed before the first
element whose key is `≤` its own, so elements processed earlier (further
left in the original list) keep their relative order on ties. -/
def insertDescBy {α : Type} (key : α → Nat) (x : α) : List α → List α
  | [] => [x]
  | y :: ys => if key y ≤ key x then x :: y :: ys else y :: insertDescBy key x ys

/-- Stable sort, descending by `key`: embeds Python's stable
`list.sort(key=lambda x: -score)` (any stable sort produces the same
output, so insertion sort is a faithful model). -/
def sortDescBy {α : Type} (key : α → Nat) : List α → List α
  | [] => []
  | x :: xs => insertDescBy key x (sortDescBy key xs)

/-- The per-operator score loop of `search_nodes`: for each term, +10 for
a display-name substring match, +5 for a type-id substring match of the
term with spaces removed, +2 per socket whose name contains the term, and
+3 if the term occurs in the profile's domain string. -/
def scoreNode (terms : List String) (nid : String) (profile : Profile) : Nat :=
  let name_lower := lowerStr profile.name
  let type_lower := lowerStr nid
  terms.foldl (fun score term =>
    let term_lower := lowerStr term
    let score := if strContains name_lower term_lower then score + 10 else score
    let score := if strContains (lowerStr type_lower) (stripSpaces term_lower) then score + 5 else score
    let score := (profile.inputs ++ profile.outputs).foldl
      (fun sc s => if strContains (lowerStr s.name) term_lower then sc + 2 else sc) score
    let score := if strContains (profile.domain.getD "") term_lower then score + 3 else score
    score) 0

/-- Source `context_builder.py`, `search_nodes`: score every KB node,
keep the ones with positive score, sort by descending score (stable, so
ties keep KB iteration order) and truncate to `max_results`. -/
def search_nodes (kb : KB) (terms : List String) (max_results : Nat) :
    List (String × Nat × Profile) :=
  let results := kb.nodes.foldl (fun acc p =>
    let score := scoreNode terms p.1 p.2
    if score > 0 then acc ++ [(p.1, score, p.2)] else acc) []
  (sortDescBy (fun r => r.2.1) results).take max_results

/-- The per-pattern score loop of `search_patterns`. -/
def scorePattern (terms : List String) (pattern : Pattern) : Nat :=
  let desc_lower := lowerStr pattern.description
  let name_lower := lowerStr pattern.name
  terms.foldl (fun score term =>
    let term_lower := lowerStr term
    let score := if strContains desc_lower term_lower then score + 5 else score
    let score := if strContains name_lower term_lower then score + 10 else score
    pattern.nodes_used.foldl (fun sc node =>
      let sc := if strContains (lowerStr node.type) term_lower then sc + 3 else sc
      if strContains (lowerStr (node.name.getD "")) term_lower then sc + 3 else sc) score) 0

/-- Source `context_builder.py`, `search_patterns`: score the verified
patterns, keep positive scores, stable-sort descending, truncate. -/
def search_patterns (kb : KB) (terms : List String) (max_results : Nat) : List Pattern :=
  let results := kb.patterns.foldl (fun acc pattern =>
    let score := scorePattern terms pattern
    if score > 0 then acc ++ [(score, pattern)] else acc) []
  ((sortDescBy (fun r => r.1) results).take max_results).map (·.2)

/-! ## Context assembly (`build_context`) -/

/-- A matched-node spec as placed in `context["matched_nodes"]`.  Keys the
source sets only on some code paths are `Option`s (`none` = key absent,
so `spec.get(key)` yields Python `None`). -/
structure NodeSpec where
  name : String
  type_id : String
  role : String
  domain : Option String
  observed_behavior : Option String
  inputs : List Socket
  outputs : List Socket
  enum_properties : List (String × List String)
  property_variations : Option String
  note : Option String
deriving DecidableEq

/-- The context slice returned by `build_context`. -/
structure Context where
  task_description : String
  search_terms : List String
  matched_nodes : List (String × NodeSpec)
  connection_rules_valid : List Conn
  connection_rules_type_groups : List (String × TypeGroup)
  example_patterns : List Pattern
  structural_rules_tree_creation : List (String × String)
  structural_rules_pitfalls : List String

/-- Stable ascending insertion for strings (for Python's `sorted`). -/
def insertAscStr (x : String) : List String → List String
  | [] => [x]
  | y :: ys => if x < y then x :: y :: ys else y :: insertAscStr x ys

/-- Python's `sorted` on a list of strings (code-point order). -/
def sortStrings (l : List String) : List String :=
  l.foldr insertAscStr []

/-- Enum-property extraction of `build_context`: keep enumerated
properties other than `color_tag` / `warning_propagation`. -/
def enumPropsOf (profile : Profile) : List (String × List String) :=
  profile.properties.foldl (fun acc p =>
    match p.2 with
    | .enum items =>
      if p.1 == "color_tag" || p.1 == "warning_propagation" then acc
      else acc ++ [(p.1, items)]
    | .plain => acc) []

/-- The spec dict `build_context` builds for a retrieved node. -/
def matchedSpec (nid : String) (profile : Profile) : NodeSpec :=
  { name := profile.name
    type_id := nid
    role := profile.role.getD "unknown"
    domain := some (profile.domain.getD "unknown")
    observed_behavior := some (profile.observed_behavior.getD "NOT_TESTED")
    inputs := profile.inputs
    outputs := profile.outputs
    enum_properties := enumPropsOf profile
    property_variations := profile.property_variations
    note := none }

/-- The spec dict `build_context` builds for an auto-included essential
utility node (note that it carries no `domain`, `observed_behavior`,
`enum_properties` or `property_variations` keys). -/
def essentialSpec (eid : String) (profile : Profile) : NodeSpec :=
  { name := profile.name
    type_id := eid
    role := profile.role.getD "unknown"
    domain := none
    observed_behavior := none
    inputs := profile.inputs
    outputs := profile.outputs
    enum_properties := []
    property_variations := none
    note := some "Essential utility node (auto-included)" }

/-- The fixed list of essential utility nodes `build_context` always
injects when present in the KB. -/
def essential_nodes : List String :=
  ["GeometryNodeJoinGeometry", "GeometryNodeRealizeInstances", "GeometryNodeSetPosition"]

/-- The socket types of the retrieved nodes (a Python `set`, modelled as a
deduplicated list), with `"GEOMETRY"` always added. -/
def socketTypesUsed (node_matches : List (String × Nat × Profile)) : List String :=
  let tys := node_matches.foldl (fun acc r =>
    let acc := r.2.2.inputs.foldl (fun a s => insertDedup a s.type) acc
    r.2.2.outputs.foldl (fun a s => insertDedup a s.type) acc) []
  insertDedup tys "GEOMETRY"

/-- Source `context_builder.py`, `build_context`: retrieve nodes and
patterns for the description, filter the KB compatibility edges to those
touching a retrieved node's socket types (plus `GEOMETRY`), build the
matched-node specs, then inject the essential utility nodes that are
present in the KB and not already matched. -/
def build_context (kb : KB) (description : String) (max_nodes : Nat) : Context :=
  let terms := extract_search_terms description
  let node_matches := search_nodes kb terms max_nodes
  let pattern_matches := search_patterns kb terms 5
  let socket_types_used := socketTypesUsed node_matches
  let relevant_connections := kb.valid_connections.filter
    (fun c => socket_types_used.contains c.src || socket_types_used.contains c.dst)
  let matched_nodes := node_matches.map (fun r => (r.1, matchedSpec r.1 r.2.2))
  let matched_nodes := essential_nodes.foldl (fun acc eid =>
    if (acc.find? (fun p => p.1 == eid)).isSome then acc
    else match lookupNode kb eid with
      | some profile => acc ++ [(eid, essentialSpec eid profile)]
      | none => acc) matched_nodes
  { task_description := description
    search_terms := sortStrings terms
    matched_nodes := matched_nodes
    connection_rules_valid := relevant_connections
    connection_rules_type_groups := kb.type_groups
    example_patterns := pattern_matches
    structural_rules_tree_creation := kb.tree_creation
    structural_rules_pitfalls := kb.pitfalls }

/-! ## Generic DAG builder (`generate.py`, `_DAGBuilder`) -/

/-- A node record `(var_name, type_id, label, col, row)` of the builder. -/
structure NodeEntry where
  var : String
  tid : String
  label : String
  col : Int
  row : Int
deriving DecidableEq

/-- A link record `(from_var, from_sock, to_var, to_sock)` of the builder. -/
structure LinkEntry where
  fv : String
  fs : String
  tv : String
  ts : String
deriving DecidableEq

/-- The accumulating state of `_DAGBuilder`. -/
structure Builder where
  description : String
  nodes : List NodeEntry
  links : List LinkEntry
  defaults : List (String × String × PyVal)
  properties : List (String × String × PyVal)
  var_counter : Nat

/-- A fresh builder, embedding `_DAGBuilder.__init__`. -/
def Builder.init (description : String) : Builder :=
  { description := description, nodes := [], links := [], defaults := [],
    properties := [], var_counter := 0 }

/-- Source `_DAGBuilder.add`: append a node and return its variable name. -/
def Builder.add (b : Builder) (tid label : String) (col row : Int) : Builder × String :=
  let var := "node_" ++ toString b.var_counter
  ({ b with var_counter := b.var_counter + 1,
            nodes := b.nodes ++ [⟨var, tid, label, col, row⟩] }, var)

/-- Source `_DAGBuilder.wire`: append a link record (note that the source
performs no validation of any kind here — it is a bare list append). -/
def Builder.wire (b : Builder) (from_var from_sock to_var to_sock : String) : Builder :=
  { b with links := b.links ++ [⟨from_var, from_sock, to_var, to_sock⟩] }

/-- Source `_DAGBuilder.set_default`: append a socket-default record. -/
def Builder.set_default (b : Builder) (var socket_name : String) (value : PyVal) : Builder :=
  { b with defaults := b.defaults ++ [(var, socket_name, value)] }

/-- Source `_DAGBuilder.set_prop`: append a property record. -/
def Builder.set_prop (b : Builder) (var prop_name : String) (value : PyVal) : Builder :=
  { b with properties := b.properties ++ [(var, prop_name, value)] }

/-- Source `generate.py`, `_INSTANCE_PRODUCING_NODES`: node types whose
geometry output contains unrealized instances. -/
def _INSTANCE_PRODUCING_NODES : List String := [
  "GeometryNodeInstanceOnPoints",
  "GeometryNodeGeometryToInstance",
  "GeometryNodeCollectionInfo",
  "GeometryNodeObjectInfo",
  "GeometryNodeDuplicateElements"]

/-- The `var_to_type` dict of `_ensure_realize_instances` (a Python dict
comprehension over the node list: on duplicate vars the last entry wins). -/
def varToType (nodes : List NodeEntry) (v : String) : Option String :=
  (nodes.reverse.find? (fun n => n.var == v)).map (·.tid)

/-- The patch condition of `_ensure_realize_instances`: a link terminates
at `gout` and its source node's type produces instances. -/
def needsPatch (nodes : List NodeEntry) (l : LinkEntry) : Bool :=
  l.tv == "gout" && ((varToType nodes l.fv).map _INSTANCE_PRODUCING_NODES.contains).getD false

/-- The placement column `max((col for ...), default=1)`. -/
def maxColOf (nodes : List NodeEntry) : Int :=
  ((nodes.map (·.col)).max?).getD 1

/-- Source `_DAGBuilder._ensure_realize_instances`: if some
instance-producing node wires directly to `gout` and no Realize Instances
node exists anywhere, insert one, re-route every such link through it and
wire it to `gout`.  Patching by collected indices is equivalent to mapping
over the links because the patch condition depends only on the link value
(and on the node list as it was before the insertion). -/
def Builder.ensureRealize (b : Builder) : Builder :=
  if b.links.all (fun l => !needsPatch b.nodes l) then b
  else if b.nodes.any (fun n => n.tid == "GeometryNodeRealizeInstances") then b
  else
    let max_col := maxColOf b.nodes
    let (b1, realize_var) := b.add "GeometryNodeRealizeInstances" "Realize Instances" (max_col + 1) 0
    let b2 := { b1 with links := b1.links.map (fun l =>
      if needsPatch b.nodes l then { l with tv := realize_var, ts := "Geometry" } else l) }
    b2.wire realize_var "Geometry" "gout" "Geometry"

/-- One emitted line of the generated `build_tree` function.  The source
accumulates strings; this embedding keeps each line's content structured
(scaffold text as `raw`) and renders them with `renderLine`. -/
inductive Line where
  | raw (s : String)
  | comment (label : String)
  | create (var tid : String) (x y : Int)
  | setProp (var pname : String) (value : PyVal)
  | setDefault (var sname : String) (value : PyVal)
  | wire (fv fs tv ts : String)

/-- Whether a line is part of a node's configuration block
(creation, property assignment or default assignment). -/
def Line.isSetup : Line → Bool
  | .create _ _ _ _ => true
  | .setProp _ _ _ => true
  | .setDefault _ _ _ => true
  | _ => false

/-- Whether a line is a wire instruction. -/
def Line.isWire : Line → Bool
  | .wire _ _ _ _ => true
  | _ => false

/-- Rendering of a line to the exact Python text the source emits. -/
def renderLine : Line → String
  | .raw s => s
  | .comment label => "    # " ++ label
  | .create var tid x y =>
    "    " ++ var ++ " = add_node(tree, \"" ++ tid ++ "\", location=(" ++
      toString x ++ ", " ++ toString y ++ "))"
  | .setProp var pname value => "    " ++ var ++ "." ++ pname ++ " = " ++ pyRepr value
  | .setDefault var sname value =>
    "    " ++ var ++ ".inputs[\"" ++ sname ++ "\"].default_value = " ++
      (match value with
       | .plist elems => pyTupleStr elems
       | v => pyRepr v)
  | .wire fv fs tv ts =>
    "    link(tree, " ++ fv ++ ", \"" ++ fs ++ "\", " ++ tv ++ ", \"" ++ ts ++ "\")"

/-- The per-node configuration block of `emit`: comment, creation,
properties (in insertion order), then socket defaults. -/
def nodeBlock (properties defaults : List (String × String × PyVal)) (n : NodeEntry) : List Line :=
  [Line.comment n.label, Line.create n.var n.tid (n.col * 250) (n.row * (-250))] ++
  ((properties.filter (fun p => p.1 == n.var)).map (fun p => Line.setProp n.var p.2.1 p.2.2)) ++
  ((defaults.filter (fun d => d.1 == n.var)).map (fun d => Line.setDefault n.var d.2.1 d.2.2))

/-- Source `_DAGBuilder.emit`: run the repair pass, then emit every node's
configuration block (creation, properties, defaults), and only afterwards
every wire instruction.  The `props_by_var` / `defaults_by_var` dicts of
the source group by var preserving insertion order, which is exactly a
per-var filter of the insertion-ordered lists. -/
def Builder.emitLines (b0 : Builder) : List Line :=
  let b := b0.ensureRealize
  [Line.raw "def build_tree():",
   Line.raw ("    \"\"\"Build geometry node tree: " ++ b.description ++ "\"\"\""),
   Line.raw "    tree, gin, gout = create_node_tree(\"GeneratedTree\")",
   Line.raw ""] ++
  (b.nodes.flatMap (nodeBlock b.properties b.defaults)) ++
  [Line.raw "", Line.raw "    # Wire connections"] ++
  (b.links.map (fun l => Line.wire l.fv l.fs l.tv l.ts)) ++
  [Line.raw "", Line.raw "    return tree"]

/-- The string `emit` returns: the lines joined by newlines. -/
def Builder.emit (b : Builder) : String :=
  String.intercalate "\n" ((b.emitLines).map renderLine)

/-! ## Idiom recognition and idiom builders (`generate.py`) -/

/-- Dict lookup in the `matched_nodes` association list (`nodes.get(nid)`;
keys are unique, so first match). -/
def specLookup (nodes : List (String × NodeSpec)) (nid : String) : Option NodeSpec :=
  (nodes.find? (fun p => p.1 == nid)).map (·.2)

/-- Source `generate.py`, `_find_socket`: the first socket of a given type
in a node spec. -/
def _find_socket (spec : NodeSpec) (direction : String) (socket_type : String) : Option String :=
  let sockets := if direction == "in" then spec.inputs else spec.outputs
  (sockets.find? (fun s => s.type == socket_type)).map (·.name)

/-- `_find_socket` applied to a possibly-missing spec (the source passes
`nodes.get(nid, {})`, and an empty dict has no sockets). -/
def findSocketOpt (spec : Option NodeSpec) (direction socket_type : String) : Option String :=
  match spec with
  | some s => _find_socket s direction socket_type
  | none => none

/-- Source `generate.py`, `_find_all_sockets`: all sockets of a given type. -/
def _find_all_sockets (spec : NodeSpec) (direction : String) (socket_type : String) : List String :=
  let sockets := if direction == "in" then spec.inputs else spec.outputs
  (sockets.filter (fun s => s.type == socket_type)).map (·.name)

/-- `_find_all_sockets` on a possibly-missing spec. -/
def findAllSocketsOpt (spec : Option NodeSpec) (direction socket_type : String) : List String :=
  match spec with
  | some s => _find_all_sockets s direction socket_type
  | none => []

/-- Source `_build_scatter_instances`: scatter + instance pattern
(fan-out from input geometry). -/
def _build_scatter_instances (dag : Builder) (nodes : List (String × NodeSpec))
    (_context : Context) : Builder :=
  let dist_spec := specLookup nodes "GeometryNodeDistributePointsOnFaces"
  let instance_source := nodes.find? (fun p =>
    p.2.role == "generator" && p.1 != "GeometryNodeDistributePointsOnFaces" &&
      p.1 != "GeometryNodeInstanceOnPoints")
  let (dag, dist) := dag.add "GeometryNodeDistributePointsOnFaces"
    "Distribute Points on Faces" 1 0
  let dag := dag.wire "gin" "Geometry" dist
    ((findSocketOpt dist_spec "in" "GEOMETRY").getD "Mesh")
  let (dag, src) :=
    match instance_source with
    | some p => dag.add p.1 p.2.name 1 1
    | none =>
      let (dag, src) := dag.add "GeometryNodeMeshIcoSphere" "Ico Sphere" 1 1
      (dag.set_default src "Radius" (.pfloat "0.05"), src)
  let (dag, iop) := dag.add "GeometryNodeInstanceOnPoints" "Instance on Points" 2 0
  let dag := dag.wire dist "Points" iop "Points"
  let src_lookup := match instance_source with
    | some p => specLookup nodes p.1
    | none => specLookup nodes ""
  let dag := dag.wire src ((findSocketOpt src_lookup "out" "GEOMETRY").getD "Mesh")
    iop "Instance"
  if nodes.any (fun p => p.1 == "GeometryNodeRealizeInstances") then
    let (dag, real) := dag.add "GeometryNodeRealizeInstances" "Realize Instances" 3 0
    let dag := dag.wire iop "Instances" real "Geometry"
    dag.wire real "Geometry" "gout" "Geometry"
  else
    dag.wire iop "Instances" "gout" "Geometry"

/-- Source `_build_boolean_op`: boolean operation, fan-in of two geometry
streams. -/
def _build_boolean_op (dag : Builder) (nodes : List (String × NodeSpec))
    (_context : Context) : Builder :=
  let bool_spec := specLookup nodes "GeometryNodeMeshBoolean"
  let gen_source := nodes.find? (fun p => p.2.role == "generator")
  let (dag, src, src_out) :=
    match gen_source with
    | some p =>
      let (dag, src) := dag.add p.1 p.2.name 1 1
      (dag, src, (_find_socket p.2 "out" "GEOMETRY").getD "Mesh")
    | none =>
      let (dag, src) := dag.add "GeometryNodeMeshUVSphere" "UV Sphere" 1 1
      (dag.set_default src "Radius" (.pfloat "0.8"), src, "Mesh")
  let (dag, boolean) := dag.add "GeometryNodeMeshBoolean" "Mesh Boolean" 2 0
  let enum_props := match bool_spec with
    | some s => s.enum_properties
    | none => []
  let dag := if (enum_props.find? (fun p => p.1 == "operation")).isSome then
    dag.set_prop boolean "operation" (.pstr "DIFFERENCE")
  else dag
  let bool_geo_ins := findAllSocketsOpt bool_spec "in" "GEOMETRY"
  let dag :=
    match bool_geo_ins with
    | a :: c :: _ => (dag.wire "gin" "Geometry" boolean a).wire src src_out boolean c
    | [a] => dag.wire "gin" "Geometry" boolean a
    | [] => dag.wire "gin" "Geometry" boolean "Mesh"
  let bool_geo_out := (findSocketOpt bool_spec "out" "GEOMETRY").getD "Mesh"
  dag.wire boolean bool_geo_out "gout" "Geometry"

/-- Source `_build_join_geometry`: fan-in of input geometry plus up to
three generated geometry streams; with no generators at all the Join
Geometry node is skipped and input is wired straight to output. -/
def _build_join_geometry (dag : Builder) (nodes : List (String × NodeSpec))
    (_context : Context) : Builder :=
  let join_spec := specLookup nodes "GeometryNodeJoinGeometry"
  let gen_nodes := nodes.filter (fun p => p.2.role == "generator")
  if gen_nodes.isEmpty then
    dag.wire "gin" "Geometry" "gout" "Geometry"
  else
    let st := (gen_nodes.take 3).foldl
      (fun (st : Builder × Nat × List (String × NodeSpec)) p =>
        let (dag, i, acc) := st
        let (dag, g) := dag.add p.1 p.2.name 1 (Int.ofNat i + 1)
        (dag, i + 1, acc ++ [(g, p.2)]))
      (dag, 0, [])
    let (dag, _, placed_gens) := st
    let (dag, join) := dag.add "GeometryNodeJoinGeometry" "Join Geometry" 2 0
    let join_geo_in := (findSocketOpt join_spec "in" "GEOMETRY").getD "Geometry"
    let dag := dag.wire "gin" "Geometry" join join_geo_in
    let dag := placed_gens.foldl (fun dag pg =>
      dag.wire pg.1 ((_find_socket pg.2 "out" "GEOMETRY").getD "Mesh") join join_geo_in) dag
    let join_geo_out := (findSocketOpt join_spec "out" "GEOMETRY").getD "Geometry"
    dag.wire join join_geo_out "gout" "Geometry"

/-- Source `_build_curve_to_mesh`: sweep a profile curve along the input
path curve. -/
def _build_curve_to_mesh (dag : Builder) (nodes : List (String × NodeSpec))
    (_context : Context) : Builder :=
  let ctm_spec := specLookup nodes "GeometryNodeCurveToMesh"
  let profile_src := (specLookup nodes "GeometryNodeCurvePrimitiveCircle").map
    (fun s => ("GeometryNodeCurvePrimitiveCircle", s))
  let (dag, profile) :=
    match profile_src with
    | some p => dag.add p.1 p.2.name 1 1
    | none => dag.add "GeometryNodeCurvePrimitiveCircle" "Curve Circle" 1 1
  let dag := if profile_src.isNone then dag.set_default profile "Radius" (.pfloat "0.1") else dag
  let (dag, ctm) := dag.add "GeometryNodeCurveToMesh" "Curve to Mesh" 2 0
  let ctm_in_socks : List Socket := match ctm_spec with
    | some sp => sp.inputs.filter (fun sk => sk.type == "GEOMETRY")
    | none => []
  let ctm_ins := ctm_in_socks.map (·.name)
  let dag :=
    match ctm_ins with
    | a :: c :: _ =>
      let dag := dag.wire "gin" "Geometry" ctm a
      let profile_out := (findSocketOpt
        (match profile_src with
         | some p => specLookup nodes p.1
         | none => none) "out" "GEOMETRY").getD "Curve"
      dag.wire profile profile_out ctm c
    | [a] => dag.wire "gin" "Geometry" ctm a
    | [] => dag
  let ctm_out := (findSocketOpt ctm_spec "out" "GEOMETRY").getD "Mesh"
  dag.wire ctm ctm_out "gout" "Geometry"

/-- A recognised multi-node idiom (`IDIOMS` entries).  The trigger and
optional sets (Python `set` literals) are carried as lists; only subset
tests are performed on them. -/
structure Idiom where
  name : String
  description : String
  trigger_nodes : List String
  optional_nodes : List String
  build : String
deriving DecidableEq

/-- Source `generate.py`, `IDIOMS`: recognised multi-node idioms, in
priority order (first match wins). -/
def IDIOMS : List Idiom := [
  { name := "scatter_instances"
    description := "Distribute points on a surface then instance objects on them"
    trigger_nodes := ["GeometryNodeDistributePointsOnFaces", "GeometryNodeInstanceOnPoints"]
    optional_nodes := ["GeometryNodeRealizeInstances"]
    build := "_build_scatter_instances" },
  { name := "boolean_op"
    description := "Combine two geometry streams with a boolean operation"
    trigger_nodes := ["GeometryNodeMeshBoolean"]
    optional_nodes := []
    build := "_build_boolean_op" },
  { name := "join_geometry"
    description := "Merge multiple geometry streams"
    trigger_nodes := ["GeometryNodeJoinGeometry"]
    optional_nodes := []
    build := "_build_join_geometry" },
  { name := "curve_to_mesh"
    description := "Sweep a profile curve along a path curve"
    trigger_nodes := ["GeometryNodeCurveToMesh"]
    optional_nodes := ["GeometryNodeCurvePrimitiveCircle", "GeometryNodeCurvePrimitiveLine"]
    build := "_build_curve_to_mesh" }]

/-- Source `generate.py`, `_IDIOM_BUILDERS`: dispatch from idiom name to
builder function (the fallthrough case is unreachable for the four
registered names). -/
def idiomBuilder (name : String) :
    Builder → List (String × NodeSpec) → Context → Builder :=
  if name == "scatter_instances" then _build_scatter_instances
  else if name == "boolean_op" then _build_boolean_op
  else if name == "join_geometry" then _build_join_geometry
  else if name == "curve_to_mesh" then _build_curve_to_mesh
  else fun dag _ _ => dag

/-! ## Linear fallback builder and compositional entry point -/

/-- The nested field-attachment loop of `_build_linear_chain`: for a field
node's outputs (in order), the first `(output, non-geometry input)` pair
whose types are compatible; the loops break after the first hit. -/
def firstCompat (outs ins : List Socket) : Option (String × String) :=
  outs.findSome? (fun o =>
    (ins.find? (fun i => _types_compatible o.type i.type)).map (fun i => (o.name, i.name)))

/-- The fixed default chain entry of `_build_linear_chain` (a literal dict
in the source carrying only `name`, `inputs` and `outputs` keys). -/
def defaultSubdivideSpec : NodeSpec :=
  { name := "Subdivide Mesh"
    type_id := ""
    role := ""
    domain := none
    observed_behavior := none
    inputs := [⟨"Mesh", "GEOMETRY"⟩, ⟨"Level", "INT"⟩]
    outputs := [⟨"Mesh", "GEOMETRY"⟩]
    enum_properties := []
    property_variations := none
    note := none }

/-- Source `_build_linear_chain`: chain favoured processors (else
generators, else the fixed default) up to length 8, wiring each stage's
first geometry input to the previous stage's first geometry output, and
attach at most one field side-input per field node per stage. -/
def _build_linear_chain (dag : Builder) (nodes : List (String × NodeSpec))
    (_context : Context) : Builder :=
  let processors := nodes.filter (fun p =>
    p.2.role == "processor" &&
      (p.2.observed_behavior == some "MODIFIED" ||
       p.2.observed_behavior == some "PASSTHROUGH" ||
       p.2.observed_behavior == some "TYPE_CONVERTED"))
  let generators := nodes.filter (fun p => p.2.role == "generator")
  let fields := nodes.filter (fun p => p.2.role == "field")
  let chain := if !processors.isEmpty then processors else generators
  let chain := if chain.isEmpty then [("GeometryNodeSubdivideMesh", defaultSubdivideSpec)]
    else chain
  let st := (chain.take 8).foldl
    (fun (st : Builder × (String × String) × Int × Int) p =>
      let (dag, prev_geo, field_row, col) := st
      let (dag, var) := dag.add p.1 p.2.name (col + 1) 0
      let geo_in := _find_socket p.2 "in" "GEOMETRY"
      let geo_out := _find_socket p.2 "out" "GEOMETRY"
      let dag := match geo_in with
        | some gi => dag.wire prev_geo.1 prev_geo.2 var gi
        | none => dag
      let prev_geo := match geo_out with
        | some go => (var, go)
        | none => prev_geo
      let non_geo_inputs := p.2.inputs.filter (fun s => s.type != "GEOMETRY")
      let st2 := fields.foldl
        (fun (st2 : Builder × Int) f =>
          let (dag, field_row) := st2
          match firstCompat f.2.outputs non_geo_inputs with
          | some pair =>
            let (dag, f_var) := dag.add f.1 f.2.name (col + 1) field_row
            (dag.wire f_var pair.1 var pair.2, field_row + 1)
          | none => (dag, field_row))
        (dag, field_row)
      (st2.1, prev_geo, st2.2, col + 1))
    (dag, ("gin", "Geometry"), 1, 0)
  let (dag, prev_geo, _, _) := st
  dag.wire prev_geo.1 prev_geo.2 "gout" "Geometry"

/-- The idiom-selection loop of `generate_compositional`: the first idiom
(in `IDIOMS` priority order) whose trigger set is a subset of the matched
type-identifier set. -/
def selectIdiom (matched_ids : List String) : Option Idiom :=
  IDIOMS.find? (fun idiom => idiom.trigger_nodes.all (fun t => matched_ids.contains t))

/-- Source `generate_compositional`, up to the final `dag.emit()` call:
the builder state accumulated by the selected idiom builder, or by the
linear fallback when no idiom matches. -/
def generate_compositional_dag (context : Context) (description : String) : Builder :=
  let nodes := context.matched_nodes
  let matched_ids := nodes.map (·.1)
  let dag := Builder.init description
  match selectIdiom matched_ids with
  | some idiom => idiomBuilder idiom.name dag nodes context
  | none => _build_linear_chain dag nodes context

/-- The emitted instruction lines of the compositional path. -/
def generate_compositional_lines (context : Context) (description : String) : List Line :=
  (generate_compositional_dag context description).emitLines

/-- Source `generate_compositional`: the emitted `build_tree` code. -/
def generate_compositional (context : Context) (description : String) (_kb : KB) : String :=
  (generate_compositional_dag context description).emit

def scriptHeaderSeg0 : String :=
  "\"\"\"\nAuto-generated Geometry Node Tree\n===================================\nDescription: "

def scriptHeaderSeg1 : String :=
  "\nGenerated:   "

def scriptHeaderSeg2 : String :=
  "\nBlender:     "

def scriptHeaderSeg3 : String :=
  "\n\nRun in Blender:\n  blender --background --factory-startup --python this_script.py\nOr paste into Blender\x27s scripting workspace.\n\"\"\"\n\nimport bpy\nimport json\n\n\ndef cleanup():\n    \"\"\"Remove all objects and node trees.\"\"\"\n    for obj in list(bpy.data.objects):\n        bpy.data.objects.remove(obj, do_unlink=True)\n    for tree in list(bpy.data.node_groups):\n        bpy.data.node_groups.remove(tree)\n    for mesh in list(bpy.data.meshes):\n        if mesh.users == 0:\n            bpy.data.meshes.remove(mesh)\n\n\ndef create_node_tree(name=\"GeneratedTree\"):\n    \"\"\"Create a new geometry node tree with Geometry I/O.\"\"\"\n    tree = bpy.data.node_groups.new(name, \"GeometryNodeTree\")\n    tree.interface.new_socket(\"Geometry\", in_out=\"INPUT\", socket_type=\"NodeSocketGeometry\")\n    tree.interface.new_socket(\"Geometry\", in_out=\"OUTPUT\", socket_type=\"NodeSocketGeometry\")\n\n    # IMPORTANT: Group Input/Output nodes must be created manually via API\n    gin = tree.nodes.new(\"NodeGroupInput\")\n    gin.location = (-400, 0)\n    gout = tree.nodes.new(\"NodeGroupOutput\")\n    gout.location = (800, 0)\n\n    return tree, gin, gout\n\n\ndef add_node(tree, type_id, location=(0, 0), **properties):\n    \"\"\"Add a node to the tree and set properties.\"\"\"\n    node = tree.nodes.new(type_id)\n    node.location = location\n    for key, value in properties.items():\n        if hasattr(node, key):\n            setattr(node, key, value)\n    return node\n\n\ndef _match_socket(sockets, name):\n    \"\"\"Find a socket by identifier first, then by display name.\n\n    Blender\x27s C++ engine uses socket.identifier internally.  Display\n    names can collide (e.g. Math node has two \"Value\" inputs), so\n    matching by identifier is more reliable.\n    \"\"\"\n    for s in sockets:\n        if s.identifier == name:\n            return s\n    for s in sockets:\n        if s.name == name:\n            return s\n    return None\n\n\ndef link(tree, from_node, from_socket, to_node, to_socket):\n    \"\"\"Link two sockets by identifier or name.\"\"\"\n    out_socket = _match_socket(from_node.outputs, from_socket)\n    in_socket = _match_socket(to_node.inputs, to_socket)\n    if not out_socket:\n        raise ValueError(f\"Output \x27\x7bfrom_socket\x7d\x27 not found on \x7bfrom_node.name\x7d\")\n    if not in_socket:\n        raise ValueError(f\"Input \x27\x7bto_socket\x7d\x27 not found on \x7bto_node.name\x7d\")\n    return tree.links.new(out_socket, in_socket)\n\n"

def scriptFooterSeg0 : String :=
  "\n\ndef main():\n    cleanup()\n    tree = build_tree()\n\n    # Create test object and apply\n    "

def scriptFooterSeg1 : String :=
  "\n    obj = bpy.context.active_object\n\n    # Apply geometry nodes modifier\n    mod = obj.modifiers.new(\"GeneratedGeoNodes\", \"NODES\")\n    mod.node_group = tree\n\n    # Verify\n    depsgraph = bpy.context.evaluated_depsgraph_get()\n    eval_obj = obj.evaluated_get(depsgraph)\n    mesh = eval_obj.to_mesh()\n    print(f\"Result: \x7blen(mesh.vertices)\x7d vertices, \x7blen(mesh.edges)\x7d edges, \x7blen(mesh.polygons)\x7d faces\")\n    eval_obj.to_mesh_clear()\n\n    print(\"\\nGeometry node tree generated successfully!\")\n\n\nif __name__ == \"__main__\":\n    main()\n"

/-- Source `SCRIPT_HEADER.format(...)`: the literal template with the
three placeholders spliced in (doubled braces of the template render as
single braces, already collapsed in the segments above). -/
def SCRIPT_HEADER_fmt (description timestamp blender_version : String) : String :=
  scriptHeaderSeg0 ++ description ++ scriptHeaderSeg1 ++ timestamp ++
    scriptHeaderSeg2 ++ blender_version ++ scriptHeaderSeg3

/-- Source `SCRIPT_FOOTER.format(...)`: the literal template with the
mesh-creation code spliced in. -/
def SCRIPT_FOOTER_fmt (create_mesh_code : String) : String :=
  scriptFooterSeg0 ++ create_mesh_code ++ scriptFooterSeg1

/-! ## Exemplar fast path (`generate_from_pattern`) -/

/-- The variable name assigned to the i-th exemplar node. -/
def patNodeVar (i : Nat) : String := "node_" ++ toString i

/-- The property filter of `generate_from_pattern`: drop `bl_`-prefixed
internals and UI-only properties. -/
def patPropsOf (node : PatNode) : List (String × PyVal) :=
  node.properties.filter (fun p =>
    !(p.1.startsWith "bl_") && p.1 != "color_tag" && p.1 != "warning_propagation" &&
      p.1 != "location_absolute")

/-- The `prop_str` suffix of the `add_node` call. -/
def patPropStr (props : List (String × PyVal)) : String :=
  if props.isEmpty then ""
  else ", " ++ String.intercalate ", " (props.map (fun p => p.1 ++ "=" ++ pyRepr p.2))

/-- The emitted default-value line(s) for one exemplar input default:
lists render as tuples, ints/floats (and bools, a Python `int` subtype)
via `str`, and any other value is silently skipped by the source. -/
def patDefaultLine (var : String) (d : String × PyVal) : List String :=
  let intro := "    " ++ var ++ ".inputs[\"" ++ d.1 ++ "\"].default_value = "
  match d.2 with
  | .plist elems => [intro ++ pyTupleStr elems]
  | .pint n => [intro ++ toString n]
  | .pfloat lit => [intro ++ lit]
  | .pbool b => [intro ++ (if b then "True" else "False")]
  | .pstr _ => []

/-- The emitted block for the i-th exemplar node (placed at `x = i*250`). -/
def patNodeBlock (i : Nat) (node : PatNode) : List String :=
  let var := patNodeVar i
  let node_name := node.name.getD node.type
  ["    # " ++ node_name,
   "    " ++ var ++ " = add_node(tree, \"" ++ node.type ++ "\", location=(" ++
     toString (i * 250) ++ ", 0)" ++ patPropStr (patPropsOf node) ++ ")"] ++
  (node.input_defaults.flatMap (patDefaultLine var)) ++ [""]

/-- The `node_vars` dict mapping exemplar node names to variable names
(later nodes with the same name override earlier ones, as in a Python
dict, hence the reversed search). -/
def patNodeVars (nodes : List PatNode) : List (String × String) :=
  nodes.enum.map (fun p => (p.2.name.getD p.2.type, patNodeVar p.1))

/-- Source-edge endpoint mapping of `generate_from_pattern`: the reserved
name maps to `gin`, a known exemplar node to its variable, and any other
name is emitted as a runtime `tree.nodes[...]` lookup. -/
def patFromVar (node_vars : List (String × String)) (name : String) : String :=
  if name == "Group Input" then "gin"
  else match node_vars.reverse.find? (fun p => p.1 == name) with
    | some p => p.2
    | none => "tree.nodes[\"" ++ name ++ "\"]"

/-- Destination-edge endpoint mapping (reserved name `Group Output`). -/
def patToVar (node_vars : List (String × String)) (name : String) : String :=
  if name == "Group Output" then "gout"
  else match node_vars.reverse.find? (fun p => p.1 == name) with
    | some p => p.2
    | none => "tree.nodes[\"" ++ name ++ "\"]"

/-- The emitted `link(...)` line for one exemplar edge. -/
def patLinkLine (node_vars : List (String × String)) (l : PatLink) : String :=
  "    link(tree, " ++ patFromVar node_vars l.from_node ++ ", \"" ++ l.from_socket ++
    "\", " ++ patToVar node_vars l.to_node ++ ", \"" ++ l.to_socket ++ "\")"

/-- Source `generate.py`, `generate_from_pattern`, as the list of emitted
lines: clone the exemplar's nodes in order with fresh variables, replay
properties and defaults, then replay every edge through the endpoint
mapping.  The function is total: no input makes it signal an error. -/
def generate_from_pattern_lines (pattern : Pattern) (description : String) : List String :=
  let node_vars := patNodeVars pattern.nodes_used
  ["def build_tree():",
   "    \"\"\"Build geometry node tree: " ++ description ++ "\"\"\"",
   "    tree, gin, gout = create_node_tree(\"GeneratedTree\")",
   ""] ++
  (pattern.nodes_used.enum.flatMap (fun p => patNodeBlock p.1 p.2)) ++
  ["    # Wire connections"] ++
  (pattern.links.map (patLinkLine node_vars)) ++
  ["", "    return tree"]

/-- The string `generate_from_pattern` returns. -/
def generate_from_pattern (pattern : Pattern) (description : String) (_kb : KB) : String :=
  String.intercalate "\n" (generate_from_pattern_lines pattern description)

/-! ## Main pipeline (`generate_script`) -/

/-- Source `generate_script`'s `mesh_map.get(mesh_type, mesh_map["cube"])`. -/
def meshMapLookup (mesh_type : String) : String :=
  if mesh_type == "cube" then "bpy.ops.mesh.primitive_cube_add()"
  else if mesh_type == "plane" then "bpy.ops.mesh.primitive_plane_add(size=4)"
  else if mesh_type == "sphere" then
    "bpy.ops.mesh.primitive_uv_sphere_add(segments=32, ring_count=16)"
  else if mesh_type == "monkey" then "bpy.ops.mesh.primitive_monkey_add()"
  else if mesh_type == "grid" then
    "bpy.ops.mesh.primitive_grid_add(x_subdivisions=10, y_subdivisions=10)"
  else "bpy.ops.mesh.primitive_cube_add()"

/-- Source `generate.py`, `generate_script`: build the context, take the
exemplar fast path when a pattern matched (else the compositional path),
and assemble header, build code, footer and trailing metadata comments.
The source's `datetime.now().isoformat()` — its only impure input — is
the explicit `timestamp` argument. -/
def generate_script (description : String) (kb : KB) (mesh_type timestamp : String) :
    String × Context × String :=
  let context := build_context kb description 15
  let pattern_matches := context.example_patterns
  let codeMethod :=
    match pattern_matches with
    | best_pattern :: _ =>
      (generate_from_pattern best_pattern description kb, "pattern:" ++ best_pattern.name)
    | [] => (generate_compositional context description kb, "compositional")
  let create_mesh_code := meshMapLookup mesh_type
  let header := SCRIPT_HEADER_fmt description timestamp
    ((kb.metadata_blender_version).getD "4.5.x")
  let footer := SCRIPT_FOOTER_fmt create_mesh_code
  let script := header ++ "\n" ++ codeMethod.1 ++ "\n" ++ footer
  let script := script ++ "\n# Generation method: " ++ codeMethod.2 ++ "\n"
  let script := script ++ "# Context: " ++ toString context.matched_nodes.length ++
    " nodes, " ++ toString context.example_patterns.length ++ " patterns\n"
  (script, context, codeMethod.2)

/-- The numeric equivalence class named by the spec
(boolean/integer/float/vector/color; the KB uses both `VALUE` and `FLOAT`
for float sockets). -/
def specNumericTypes : List String := ["BOOLEAN", "INT", "VALUE", "FLOAT", "RGBA", "VECTOR"]

/-- The resource types named by the spec
(graph/object/collection/image/material). -/
def specResourceTypes : List String := ["GEOMETRY", "OBJECT", "COLLECTION", "IMAGE", "MATERIAL"]

/-- A builder holding one Subdivide Mesh node (whose `Level` input is an
`INT` socket), used as the concrete state for the C2 counterexample. -/
def b2cex : Builder :=
  ((Builder.init "demo").add "GeometryNodeSubdivideMesh" "Subdivide Mesh" 1 0).1

/-- The concrete builder for the C1 witness: one node, one wire. -/
def b1w : Builder :=
  (((Builder.init "demo").add "GeometryNodeSubdivideMesh" "Subdivide Mesh" 1 0).1).wire
    "gin" "Geometry" "node_0" "Mesh"

/-- The variable name `_ensure_realize_instances` would assign to the
inserted realize node (the next fresh `node_k`). -/
def rvOf (b : Builder) : String := "node_" ++ toString b.var_counter

/-- Whether a realize-type node exists anywhere in the graph. -/
def hasRealize (b : Builder) : Bool :=
  b.nodes.any (fun n => n.tid == "GeometryNodeRealizeInstances")

/-- The links the repair pass would re-route: edges into `gout` whose
source node's type produces unrealized instances. -/
def offendingLinks (b : Builder) : List LinkEntry :=
  b.links.filter (needsPatch b.nodes)

/-- The edge relation of a link list (ignoring socket names). -/
def EdgeRel (links : List LinkEntry) (u v : String) : Prop :=
  ∃ l ∈ links, l.fv = u ∧ l.tv = v

/-- Acyclicity of a link list: no vertex reaches itself through a
non-empty path. -/
def Acyclic (links : List LinkEntry) : Prop :=
  ∀ v, ¬ Relation.TransGen (EdgeRel links) v v

/-- The concrete builder for the C3 witness: an Instance on Points node
wired directly to Output, with no realize node present. -/
def b3w : Builder :=
  (((Builder.init "demo").add "GeometryNodeInstanceOnPoints" "Instance on Points" 1 0).1).wire
    "node_0" "Instances" "gout" "Geometry"

/-- A malformed exemplar whose edge references the unknown endpoint
`Ghost`, for the C5 counterexample. -/
def p5cex : Pattern :=
  { name := "broken", description := "malformed exemplar",
    nodes_used := [{ type := "GeometryNodeSubdivideMesh", name := some "Subdivide",
                     properties := [], input_defaults := [] }],
    links := [⟨"Ghost", "Geometry", "Group Output", "Geometry"⟩] }

/-- Claim C6's per-operator score, following the claim's words: sum over
all terms of 10 for a display-name substring hit, 5 for a type-id hit of
the term with spaces removed, 2 per port whose name contains the term,
and 3 if the term EQUALS the operator's domain tag. -/
def scoreNodeClaim (terms : List String) (nid : String) (profile : Profile) : Nat :=
  (terms.map (fun term =>
    let term_lower := lowerStr term
    (if strContains (lowerStr profile.name) term_lower then 10 else 0) +
    (if strContains (lowerStr (lowerStr nid)) (stripSpaces term_lower) then 5 else 0) +
    2 * ((profile.inputs ++ profile.outputs).filter
      (fun s => strContains (lowerStr s.name) term_lower)).length +
    (if term_lower = profile.domain.getD "" then 3 else 0))).sum

/-- The amended per-operator score: identical to the claim's formula
except that the domain contribution is a substring test (the term occurs
in the domain tag), which is what the code computes. -/
def scoreNodeAmended (terms : List String) (nid : String) (profile : Profile) : Nat :=
  (terms.map (fun term =>
    let term_lower := lowerStr term
    (if strContains (lowerStr profile.name) term_lower then 10 else 0) +
    (if strContains (lowerStr (lowerStr nid)) (stripSpaces term_lower) then 5 else 0) +
    2 * ((profile.inputs ++ profile.outputs).filter
      (fun s => strContains (lowerStr s.name) term_lower)).length +
    (if strContains (profile.domain.getD "") term_lower then 3 else 0))).sum

/-- Retrieval as claim C6 describes it: score every operator by the
claim's formula, exclude zero scores, stable-sort descending, truncate. -/
def search_nodes_claim (kb : KB) (terms : List String) (max_results : Nat) :
    List (String × Nat × Profile) :=
  (sortDescBy (fun r => r.2.1)
    ((kb.nodes.filter (fun p => decide (0 < scoreNodeClaim terms p.1 p.2))).map
      (fun p => (p.1, scoreNodeClaim terms p.1 p.2, p.2)))).take max_results

/-- Retrieval as the amended claim describes it (domain hit by
substring). -/
def search_nodes_amended (kb : KB) (terms : List String) (max_results : Nat) :
    List (String × Nat × Profile) :=
  (sortDescBy (fun r => r.2.1)
    ((kb.nodes.filter (fun p => decide (0 < scoreNodeAmended terms p.1 p.2))).map
      (fun p => (p.1, scoreNodeAmended terms p.1 p.2, p.2)))).take max_results

/-- An operator whose domain tag strictly contains a search term, for the
C6 counterexample. -/
def p6prof : Profile :=
  { name := "Foo", inputs := [], outputs := [], role := some "processor",
    domain := some "mesh_ops", observed_behavior := none, properties := [],
    property_variations := none }

/-- A one-operator KB for the C6 counterexample. -/
def kb6 : KB :=
  { nodes := [("XNodeFoo", p6prof)], valid_connections := [], type_groups := [],
    patterns := [], pitfalls := [], tree_creation := [],
    metadata_blender_version := none }

/-- Join Geometry profile of the concrete test KB. -/
def pJoinEss : Profile :=
  { name := "Join Geometry", inputs := [⟨"Geometry", "GEOMETRY"⟩],
    outputs := [⟨"Geometry", "GEOMETRY"⟩], role := some "processor",
    domain := some "utility", observed_behavior := some "PASSTHROUGH",
    properties := [], property_variations := none }

/-- Realize Instances profile of the concrete test KB. -/
def pRealizeEss : Profile :=
  { name := "Realize Instances", inputs := [⟨"Geometry", "GEOMETRY"⟩],
    outputs := [⟨"Geometry", "GEOMETRY"⟩], role := some "processor",
    domain := some "utility", observed_behavior := some "PASSTHROUGH",
    properties := [], property_variations := none }

/-- Set Position profile of the concrete test KB (it exposes non-geometry
`BOOLEAN` and `VECTOR` input sockets). -/
def pSetPosEss : Profile :=
  { name := "Set Position",
    inputs := [⟨"Geometry", "GEOMETRY"⟩, ⟨"Selection", "BOOLEAN"⟩,
               ⟨"Position", "VECTOR"⟩, ⟨"Offset", "VECTOR"⟩],
    outputs := [⟨"Geometry", "GEOMETRY"⟩], role := some "processor",
    domain := some "utility", observed_behavior := some "MODIFIED",
    properties := [], property_variations := none }

/-- A concrete KB holding exactly the three essential utility operators
and compatibility edges for both `GEOMETRY` and `VECTOR`. -/
def kbEss : KB :=
  { nodes := [("GeometryNodeJoinGeometry", pJoinEss),
              ("GeometryNodeRealizeInstances", pRealizeEss),
              ("GeometryNodeSetPosition", pSetPosEss)],
    valid_connections := [⟨"GEOMETRY", "GEOMETRY"⟩, ⟨"VECTOR", "VECTOR"⟩],
    type_groups := [], patterns := [], pitfalls := [], tree_creation := [],
    metadata_blender_version := some "4.5.0" }

/-- Whether a line is a node-creation instruction. -/
def Line.isCreate : Line → Bool
  | .create _ _ _ _ => true
  | _ => false

/-- The number of real nodes created by an emitted instruction list. -/
def createCount (lines : List Line) : Nat :=
  (lines.filter Line.isCreate).length

/-- The wire instructions of an emitted instruction list, as endpoint
tuples. -/
def wiresOf (lines : List Line) : List (String × String × String × String) :=
  lines.foldr (fun l acc =>
    match l with
    | .wire fv fs tv ts => (fv, fs, tv, ts) :: acc
    | _ => acc) []

/-- The part of the serialized script strictly before the embedded
generation timestamp. -/
def scriptPre (description : String) : String :=
  scriptHeaderSeg0 ++ description ++ scriptHeaderSeg1

/-- The part of the serialized script strictly after the embedded
generation timestamp (independent of the timestamp). -/
def scriptPost (description : String) (kb : KB) (mesh_type : String) : String :=
  scriptHeaderSeg2 ++ (kb.metadata_blender_version).getD "4.5.x" ++ scriptHeaderSeg3 ++ "\n" ++
    (match (build_context kb description 15).example_patterns with
     | best_pattern :: _ => generate_from_pattern best_pattern description kb
     | [] => generate_compositional (build_context kb description 15) description kb) ++ "\n" ++
    SCRIPT_FOOTER_fmt (meshMapLookup mesh_type) ++
    "\n# Generation method: " ++
    (match (build_context kb description 15).example_patterns with
     | best_pattern :: _ => "pattern:" ++ best_pattern.name
     | [] => "compositional") ++ "\n" ++
    "# Context: " ++ toString (build_context kb description 15).matched_nodes.length ++
    " nodes, " ++ toString (build_context kb description 15).example_patterns.length ++
    " patterns\n"

/-!
## Theorems

The claim theorems, their witnesses and counterexamples, and the
supporting lemmas they rely on.
-/

/-! ## Claim C8 — the type-compatibility relation -/

/-- Claim C8, counterexample: the spec's spatial class does not exist in
the code — `_types_compatible` rejects rotation→matrix (and the reverse),
although the claim asserts every ordered spatial pair is compatible. -/
theorem types_compatible_spatial_pair_fails :
    _types_compatible "ROTATION" "MATRIX" = false ∧
    _types_compatible "MATRIX" "ROTATION" = false := by
  decide

/-- Claim C8 (amended): `_types_compatible` is reflexive, relates every
ordered pair of numeric-class types in both directions, rejects every
pair of distinct resource types — and, contrary to the claim, also
rejects the rotation/matrix pair, since the code has no spatial class. -/
theorem types_compatible_characterization :
    (∀ t : String, _types_compatible t t = true)
    ∧ (∀ t1 t2 : String, t1 ∈ specNumericTypes → t2 ∈ specNumericTypes →
        _types_compatible t1 t2 = true)
    ∧ (∀ t1 t2 : String, t1 ∈ specResourceTypes → t2 ∈ specResourceTypes → t1 ≠ t2 →
        _types_compatible t1 t2 = false)
    ∧ _types_compatible "ROTATION" "MATRIX" = false
    ∧ _types_compatible "MATRIX" "ROTATION" = false := by
  refine ⟨fun t => by simp [_types_compatible], ?_, ?_, by decide, by decide⟩
  · intro t1 t2 h1 h2
    fin_cases h1 <;> fin_cases h2 <;> decide
  · intro t1 t2 h1 h2 hne
    fin_cases h1 <;> fin_cases h2 <;> revert hne <;> decide

/-- Witness for the amended C8 theorem at concrete inputs. -/
theorem types_compatible_characterization_witness :
    _types_compatible "BOOLEAN" "RGBA" = true ∧
    _types_compatible "OBJECT" "MATERIAL" = false :=
  ⟨types_compatible_characterization.2.1 "BOOLEAN" "RGBA" (by decide) (by decide),
   types_compatible_characterization.2.2.1 "OBJECT" "MATERIAL" (by decide) (by decide)
     (by decide)⟩

/-! ## Claim C2 — `wire` performs no call-time validation -/

/-- Claim C2, counterexample: wiring a `GEOMETRY` output into an `INT`
input — a pair not related by `_types_compatible` — does not fail and
records the edge: `wire` is a bare list append with no type check, so an
incompatible edge is stored rather than rejected at call time. -/
theorem wire_incompatible_edge_recorded :
    _types_compatible "GEOMETRY" "INT" = false ∧
    (b2cex.wire "gin" "Geometry" "node_0" "Level").links =
      [⟨"gin", "Geometry", "node_0", "Level"⟩] :=
  ⟨by decide, rfl⟩

/-- Claim C2 (amended): `wire` performs no validation whatsoever: for
every builder state and every argument tuple it unconditionally appends
the edge and leaves the rest of the state unchanged; type compatibility
is never consulted at call time (the `_types_compatible` check is only
used by the linear fallback builder when choosing field side-inputs). -/
theorem wire_always_appends (b : Builder) (fv fs tv ts : String) :
    (b.wire fv fs tv ts).links = b.links ++ [⟨fv, fs, tv, ts⟩]
    ∧ (b.wire fv fs tv ts).nodes = b.nodes
    ∧ (b.wire fv fs tv ts).properties = b.properties
    ∧ (b.wire fv fs tv ts).defaults = b.defaults :=
  ⟨rfl, rfl, rfl, rfl⟩

/-! ## Claim C1 — all node configuration precedes all wiring in `emit` -/

theorem nodeBlock_not_wire (props dflts : List (String × String × PyVal)) (n : NodeEntry) :
    ∀ l ∈ nodeBlock props dflts n, l.isWire = false := by
  intro l hl
  cases l <;> first
    | rfl
    | simp [nodeBlock, List.mem_append, List.mem_map] at hl

theorem emitLines_split (b0 : Builder) :
    ∃ A C, b0.emitLines = A ++ C ∧ (∀ l ∈ A, l.isWire = false) ∧
      (∀ l ∈ C, l.isSetup = false) := by
  classical
  set b := b0.ensureRealize with hb
  refine ⟨[Line.raw "def build_tree():",
    Line.raw ("    \"\"\"Build geometry node tree: " ++ b.description ++ "\"\"\""),
    Line.raw "    tree, gin, gout = create_node_tree(\"GeneratedTree\")",
    Line.raw ""] ++ b.nodes.flatMap (nodeBlock b.properties b.defaults),
    [Line.raw "", Line.raw "    # Wire connections"] ++
      (b.links.map (fun l => Line.wire l.fv l.fs l.tv l.ts)) ++
      [Line.raw "", Line.raw "    return tree"], ?_, ?_, ?_⟩
  · simp only [Builder.emitLines, ← hb, List.append_assoc]
  · intro l hl
    rcases List.mem_append.mp hl with h | h
    · simp only [List.mem_cons, List.not_mem_nil, or_false] at h
      rcases h with rfl | rfl | rfl | rfl <;> rfl
    · obtain ⟨n, _, hn⟩ := List.mem_flatMap.mp h
      exact nodeBlock_not_wire _ _ n l hn
  · intro l hl
    cases l <;> first
      | rfl
      | simp [List.mem_append, List.mem_map] at hl

theorem index_split_lt {α : Type} (P Q : α → Bool) (A C : List α)
    (hA : ∀ a ∈ A, Q a = false) (hC : ∀ c ∈ C, P c = false)
    (i j : Nat) (hi : i < (A ++ C).length) (hj : j < (A ++ C).length)
    (hP : P ((A ++ C).get ⟨i, hi⟩) = true) (hQ : Q ((A ++ C).get ⟨j, hj⟩) = true) :
    i < j := by
  have hiA : i < A.length := by
    by_contra hge
    push_neg at hge
    have : (A ++ C).get ⟨i, hi⟩ ∈ C := by
      rw [List.get_eq_getElem, List.getElem_append_right hge]
      exact List.getElem_mem _
    rw [hC _ this] at hP
    exact Bool.false_ne_true hP
  have hjA : A.length ≤ j := by
    by_contra hlt
    push_neg at hlt
    have : (A ++ C).get ⟨j, hj⟩ ∈ A := by
      rw [List.get_eq_getElem, List.getElem_append_left hlt]
      exact List.getElem_mem _
    rw [hA _ this] at hQ
    exact Bool.false_ne_true hQ
  omega

/-- Claim C1: in the instruction list returned by `emit`, every
node-configuration instruction (node creation, property assignment,
default assignment — for any node) occurs strictly before every wire
instruction; in particular each node's property assignments precede any
wire instruction mentioning one of that node's ports. -/
theorem emit_setup_before_wires (b : Builder) (i j : Nat)
    (hi : i < b.emitLines.length) (hj : j < b.emitLines.length)
    (hs : (b.emitLines.get ⟨i, hi⟩).isSetup = true)
    (hw : (b.emitLines.get ⟨j, hj⟩).isWire = true) : i < j := by
  obtain ⟨A, C, hAC, hA, hC⟩ := emitLines_split b
  revert hi hj hs hw
  rw [hAC]
  intro hi hj hs hw
  exact index_split_lt Line.isSetup Line.isWire A C hA hC i j hi hj hs hw

/-- Witness for C1 at a concrete builder: the creation instruction of
`node_0` sits at index 5, the sole wire instruction at index 8, and the
theorem yields 5 < 8. -/
theorem emit_setup_before_wires_witness :
    5 < b1w.emitLines.length ∧ 8 < b1w.emitLines.length ∧ 5 < 8 := by
  refine ⟨by decide, by decide, ?_⟩
  exact emit_setup_before_wires b1w 5 8 (by decide) (by decide) (by decide) (by decide)

/-! ## Claim C3 — the realize-instances repair pass -/

theorem rvOf_ne_gout (b : Builder) : rvOf b ≠ "gout" := by
  intro h
  have h1 := congrArg String.length h
  simp only [rvOf, String.length_append,
    show ("node_" : String).length = 5 from rfl,
    show ("gout" : String).length = 4 from rfl] at h1
  omega

theorem ensureRealize_of_all_clean (b : Builder)
    (hc : b.links.all (fun l => !needsPatch b.nodes l) = true) :
    b.ensureRealize = b := by
  rw [Builder.ensureRealize, if_pos hc]

theorem ensureRealize_of_hasRealize (b : Builder) (h : hasRealize b = true) :
    b.ensureRealize = b := by
  simp only [hasRealize] at h
  by_cases hc : b.links.all (fun l => !needsPatch b.nodes l) = true
  · exact ensureRealize_of_all_clean b hc
  · rw [Builder.ensureRealize, if_neg hc, if_pos h]

theorem ensureRealize_insert (b : Builder)
    (hc : ¬ b.links.all (fun l => !needsPatch b.nodes l) = true)
    (hr : ¬ hasRealize b = true) :
    b.ensureRealize = { b with
      var_counter := b.var_counter + 1
      nodes := b.nodes ++
        [⟨rvOf b, "GeometryNodeRealizeInstances", "Realize Instances", maxColOf b.nodes + 1, 0⟩]
      links := (b.links.map (fun l =>
          if needsPatch b.nodes l then { l with tv := rvOf b, ts := "Geometry" } else l)) ++
        [⟨rvOf b, "Geometry", "gout", "Geometry"⟩] } := by
  simp only [hasRealize] at hr
  rw [Builder.ensureRealize, if_neg hc, if_neg hr]
  rfl

theorem varToType_append_single (ns : List NodeEntry) (x : NodeEntry) (v : String) :
    varToType (ns ++ [x]) v = if x.var == v then some x.tid else varToType ns v := by
  simp only [varToType, List.reverse_append, List.reverse_singleton, List.singleton_append,
    List.find?_cons]
  cases h : (x.var == v) <;> simp [h, varToType]

theorem needsPatch_append_realize (ns : List NodeEntry) (l : LinkEntry)
    (x : NodeEntry) (hx : x.tid = "GeometryNodeRealizeInstances") :
    needsPatch (ns ++ [x]) l = if x.var == l.fv then false else needsPatch ns l := by
  have hcont : _INSTANCE_PRODUCING_NODES.contains "GeometryNodeRealizeInstances" = false := by
    decide
  simp only [needsPatch, varToType_append_single]
  cases h : (x.var == l.fv) <;> simp [h, hx, hcont, needsPatch]
  intro _
  decide

theorem all_not_needsPatch_after (b : Builder) (x : NodeEntry)
    (hx : x.tid = "GeometryNodeRealizeInstances") (hxg : x.var ≠ "gout") :
    ((b.links.map (fun l =>
        if needsPatch b.nodes l then { l with tv := x.var, ts := "Geometry" } else l)) ++
      [({ fv := x.var, fs := "Geometry", tv := "gout", ts := "Geometry" } : LinkEntry)]).all
        (fun l => !needsPatch (b.nodes ++ [x]) l) = true := by
  rw [List.all_append, Bool.and_eq_true]
  constructor
  · rw [List.all_map, List.all_eq_true]
    intro l _
    simp only [Function.comp_apply]
    by_cases hp : needsPatch b.nodes l = true
    · rw [if_pos hp]
      have hfalse : needsPatch b.nodes ({ l with tv := x.var, ts := "Geometry" }) = false := by
        simp [needsPatch, beq_eq_false_iff_ne.mpr hxg]
      rw [needsPatch_append_realize _ _ _ hx]
      cases hfv : (x.var == ({ l with tv := x.var, ts := "Geometry" } : LinkEntry).fv) <;>
        simp [hfv, hfalse]
    · rw [if_neg hp]
      simp only [Bool.not_eq_true] at hp
      rw [needsPatch_append_realize _ _ _ hx]
      cases hfv : (x.var == l.fv) <;> simp [hfv, hp]
  · simp only [List.all_cons, List.all_nil, Bool.and_true]
    rw [needsPatch_append_realize _ _ _ hx]
    simp

theorem ensureRealize_idem (b : Builder) :
    b.ensureRealize.ensureRealize = b.ensureRealize := by
  by_cases hc : b.links.all (fun l => !needsPatch b.nodes l) = true
  · rw [ensureRealize_of_all_clean b hc, ensureRealize_of_all_clean b hc]
  · by_cases hr : hasRealize b = true
    · rw [ensureRealize_of_hasRealize b hr, ensureRealize_of_hasRealize b hr]
    · rw [ensureRealize_insert b hc hr]
      apply ensureRealize_of_all_clean
      exact all_not_needsPatch_after b
        ⟨rvOf b, "GeometryNodeRealizeInstances", "Realize Instances", maxColOf b.nodes + 1, 0⟩
        rfl (rvOf_ne_gout b)

theorem ensureRealize_acyclic (b : Builder)
    (hg : ∀ l ∈ b.links, l.fv ≠ "gout")
    (hf : ∀ l ∈ b.links, l.fv ≠ rvOf b ∧ l.tv ≠ rvOf b)
    (hac : Acyclic b.links) : Acyclic (b.ensureRealize).links := by
  by_cases hcl : b.links.all (fun l => !needsPatch b.nodes l) = true
  · rw [ensureRealize_of_all_clean b hcl]
    exact hac
  by_cases hr : hasRealize b = true
  · rw [ensureRealize_of_hasRealize b hr]
    exact hac
  rw [ensureRealize_insert b hcl hr]
  show Acyclic ((b.links.map (fun l =>
      if needsPatch b.nodes l then { l with tv := rvOf b, ts := "Geometry" } else l)) ++
    [({ fv := rvOf b, fs := "Geometry", tv := "gout", ts := "Geometry" } : LinkEntry)])
  set L' : List LinkEntry := (b.links.map (fun l =>
      if needsPatch b.nodes l then { l with tv := rvOf b, ts := "Geometry" } else l)) ++
    [({ fv := rvOf b, fs := "Geometry", tv := "gout", ts := "Geometry" } : LinkEntry)] with hL
  have hA : ∀ u w, EdgeRel L' u w →
      EdgeRel b.links u w ∨ w = rvOf b ∨ (u = rvOf b ∧ w = "gout") := by
    rintro u w ⟨l', hl', hfv, htv⟩
    rcases List.mem_append.mp hl' with hm | hm
    · obtain ⟨l, hl, rfl⟩ := List.mem_map.mp hm
      by_cases hp : needsPatch b.nodes l = true
      · rw [if_pos hp] at hfv htv
        exact Or.inr (Or.inl htv.symm)
      · rw [if_neg hp] at hfv htv
        exact Or.inl ⟨l, hl, hfv, htv⟩
    · simp only [List.mem_singleton] at hm
      subst hm
      exact Or.inr (Or.inr ⟨hfv.symm, htv.symm⟩)
  have hGoutSink : ∀ w, ¬ EdgeRel L' "gout" w := by
    rintro w ⟨l', hl', hfv, _⟩
    rcases List.mem_append.mp hl' with hm | hm
    · obtain ⟨l, hl, rfl⟩ := List.mem_map.mp hm
      by_cases hp : needsPatch b.nodes l = true
      · rw [if_pos hp] at hfv
        exact hg l hl hfv
      · rw [if_neg hp] at hfv
        exact hg l hl hfv
    · simp only [List.mem_singleton] at hm
      subst hm
      exact rvOf_ne_gout b hfv
  have hRvSucc : ∀ w, EdgeRel L' (rvOf b) w → w = "gout" := by
    rintro w ⟨l', hl', hfv, htv⟩
    rcases List.mem_append.mp hl' with hm | hm
    · obtain ⟨l, hl, rfl⟩ := List.mem_map.mp hm
      by_cases hp : needsPatch b.nodes l = true
      · rw [if_pos hp] at hfv
        exact absurd hfv ((hf l hl).1)
      · rw [if_neg hp] at hfv
        exact absurd hfv ((hf l hl).1)
    · simp only [List.mem_singleton] at hm
      subst hm
      exact htv.symm
  have hTnotRv : ∀ p x, Relation.TransGen (EdgeRel b.links) p x → x ≠ rvOf b := by
    intro p x h
    cases h with
    | single h0 =>
      obtain ⟨l, hl, _, htv⟩ := h0
      exact htv ▸ (hf l hl).2
    | tail _ h0 =>
      obtain ⟨l, hl, _, htv⟩ := h0
      exact htv ▸ (hf l hl).2
  have key : ∀ p q, Relation.TransGen (EdgeRel L') p q →
      Relation.TransGen (EdgeRel b.links) p q ∨ q = rvOf b ∨ q = "gout" := by
    intro p q h
    induction h with
    | single h0 =>
      rcases hA _ _ h0 with h1 | h1 | ⟨_, h1⟩
      · exact Or.inl (Relation.TransGen.single h1)
      · exact Or.inr (Or.inl h1)
      · exact Or.inr (Or.inr h1)
    | tail hpx hxq ih =>
      rcases ih with hT | hxrv | hxgout
      · rcases hA _ _ hxq with h1 | h1 | ⟨hxr, h1⟩
        · exact Or.inl (hT.tail h1)
        · exact Or.inr (Or.inl h1)
        · exact absurd hxr (hTnotRv _ _ hT)
      · exact Or.inr (Or.inr (hRvSucc _ (hxrv ▸ hxq)))
      · exact absurd (hxgout ▸ hxq) (hGoutSink _)
  intro v hv
  rcases key v v hv with hT | hvrv | hvgout
  · exact hac v hT
  · subst hvrv
    rcases Relation.TransGen.head'_iff.mp hv with ⟨c, hc1, hc2⟩
    have hcg : c = "gout" := hRvSucc _ hc1
    subst hcg
    have hrg := (Relation.reflTransGen_iff_eq (fun w => hGoutSink w)).mp hc2
    exact rvOf_ne_gout b hrg
  · subst hvgout
    rcases Relation.TransGen.head'_iff.mp hv with ⟨c, hc1, _⟩
    exact hGoutSink _ hc1

/-- A single edge between distinct endpoints is acyclic. -/
theorem acyclic_single (l : LinkEntry) (h : l.fv ≠ l.tv) : Acyclic [l] := by
  have hstep : ∀ a c, EdgeRel [l] a c → a = l.fv ∧ c = l.tv := by
    rintro a c ⟨l', hl', hfv, htv⟩
    simp only [List.mem_singleton] at hl'
    subst hl'
    exact ⟨hfv.symm, htv.symm⟩
  intro v hv
  have hkey : ∀ a c, Relation.TransGen (EdgeRel [l]) a c → a = l.fv ∧ c = l.tv := by
    intro a c h0
    induction h0 with
    | single h1 => exact hstep _ _ h1
    | tail _ hxq ih =>
      have h2 := hstep _ _ hxq
      exact absurd (h2.1.symm.trans ih.2) h
  have hc := hkey v v hv
  exact h (hc.1.symm.trans hc.2)

/-- Claim C3: the emit-time repair pass is idempotent.  If a realize-type
node already exists anywhere, the pass changes nothing (no insertion, no
rewriting).  If none exists and at least one instance-producing node
wires into Output, the pass inserts exactly one realize node, re-routes
exactly the offending edges through it and adds its edge to Output.  It
preserves acyclicity (given that Output has no outgoing edge and the
fresh variable is unused, both true of builder-produced graphs), and a
second invocation changes nothing further. -/
theorem ensure_realize_repair_spec (b : Builder) :
    (hasRealize b = true → b.ensureRealize = b)
    ∧ (hasRealize b = false → offendingLinks b ≠ [] →
        (b.ensureRealize).nodes = b.nodes ++
          [⟨rvOf b, "GeometryNodeRealizeInstances", "Realize Instances",
            maxColOf b.nodes + 1, 0⟩]
        ∧ (b.ensureRealize).links = (b.links.map (fun l =>
            if needsPatch b.nodes l then { l with tv := rvOf b, ts := "Geometry" } else l)) ++
          [⟨rvOf b, "Geometry", "gout", "Geometry"⟩])
    ∧ ((∀ l ∈ b.links, l.fv ≠ "gout") → (∀ l ∈ b.links, l.fv ≠ rvOf b ∧ l.tv ≠ rvOf b) →
        Acyclic b.links → Acyclic (b.ensureRealize).links)
    ∧ b.ensureRealize.ensureRealize = b.ensureRealize := by
  refine ⟨ensureRealize_of_hasRealize b, ?_, ensureRealize_acyclic b, ensureRealize_idem b⟩
  intro h1 h2
  have hcl : ¬ b.links.all (fun l => !needsPatch b.nodes l) = true := by
    intro hall
    apply h2
    rw [offendingLinks, List.filter_eq_nil_iff]
    intro a ha
    have := List.all_eq_true.mp hall a ha
    simp only [Bool.not_eq_true'] at this
    simp [this]
  have hrr : ¬ hasRealize b = true := by simp [h1]
  rw [ensureRealize_insert b hcl hrr]
  exact ⟨rfl, rfl⟩

/-- Witness for C3 at a concrete builder state. -/
theorem ensure_realize_repair_spec_witness :
    hasRealize b3w = false ∧ offendingLinks b3w ≠ [] ∧
    (b3w.ensureRealize).nodes = b3w.nodes ++
      [⟨rvOf b3w, "GeometryNodeRealizeInstances", "Realize Instances",
        maxColOf b3w.nodes + 1, 0⟩] ∧
    Acyclic (b3w.ensureRealize).links ∧
    b3w.ensureRealize.ensureRealize = b3w.ensureRealize := by
  refine ⟨by decide, by decide, ?_, ?_, ?_⟩
  · exact ((ensure_realize_repair_spec b3w).2.1 (by decide) (by decide)).1
  · exact (ensure_realize_repair_spec b3w).2.2.1 (by decide) (by decide)
      (acyclic_single ⟨"node_0", "Instances", "gout", "Geometry"⟩ (by decide))
  · exact (ensure_realize_repair_spec b3w).2.2.2

/-! ## Claim C5 — unknown exemplar edge endpoints -/

/-- Claim C5, counterexample: adapting an exemplar whose edge references
the unknown endpoint `Ghost` does not fail at synthesis time — the
source has no error path — and the edge is silently remapped to a
runtime `tree.nodes["Ghost"]` lookup in the generated script. -/
theorem pattern_unknown_endpoint_not_fatal :
    generate_from_pattern_lines p5cex "demo" =
      ["def build_tree():",
       "    \"\"\"Build geometry node tree: demo\"\"\"",
       "    tree, gin, gout = create_node_tree(\"GeneratedTree\")",
       "",
       "    # Subdivide",
       "    node_0 = add_node(tree, \"GeometryNodeSubdivideMesh\", location=(0, 0))",
       "",
       "    # Wire connections",
       "    link(tree, tree.nodes[\"Ghost\"], \"Geometry\", gout, \"Geometry\")",
       "",
       "    return tree"] := by
  rfl

/-- Claim C5 (amended): an exemplar edge endpoint that is neither the
reserved pseudo-node name nor a known exemplar node name is not a fatal
error: adaptation always completes, and the edge is emitted with the
endpoint remapped to a runtime `tree.nodes[...]` lookup (so the error
can only surface when the generated script runs inside the host). -/
theorem pattern_unknown_endpoint_remapped (pattern : Pattern) (description : String)
    (l : PatLink) (hl : l ∈ pattern.links)
    (hres : l.from_node ≠ "Group Input")
    (hunk : ∀ n ∈ pattern.nodes_used, n.name.getD n.type ≠ l.from_node) :
    patFromVar (patNodeVars pattern.nodes_used) l.from_node =
      "tree.nodes[\"" ++ l.from_node ++ "\"]" ∧
    patLinkLine (patNodeVars pattern.nodes_used) l ∈
      generate_from_pattern_lines pattern description := by
  constructor
  · have hfind : (patNodeVars pattern.nodes_used).reverse.find?
        (fun p => p.1 == l.from_node) = none := by
      rw [List.find?_eq_none]
      intro x hx
      rw [List.mem_reverse] at hx
      obtain ⟨en, hen, rfl⟩ := List.mem_map.mp hx
      have hmem := List.snd_mem_of_mem_enum hen
      simp only [beq_iff_eq]
      exact hunk en.2 hmem
    simp [patFromVar, hres, hfind]
  · have hmem : patLinkLine (patNodeVars pattern.nodes_used) l ∈
        pattern.links.map (patLinkLine (patNodeVars pattern.nodes_used)) :=
      List.mem_map_of_mem _ hl
    simp only [generate_from_pattern_lines, List.mem_append, List.mem_cons]
    tauto

/-- Witness for the amended C5 theorem at the concrete malformed
exemplar. -/
theorem pattern_unknown_endpoint_remapped_witness :
    patFromVar (patNodeVars p5cex.nodes_used) "Ghost" = "tree.nodes[\"Ghost\"]" ∧
    patLinkLine (patNodeVars p5cex.nodes_used)
        ⟨"Ghost", "Geometry", "Group Output", "Geometry"⟩ ∈
      generate_from_pattern_lines p5cex "demo" :=
  pattern_unknown_endpoint_remapped p5cex "demo"
    ⟨"Ghost", "Geometry", "Group Output", "Geometry"⟩
    (by decide) (by decide) (by decide)

/-! ## Claim C6 — operator retrieval scoring -/

theorem foldl_count2 (P : Socket → Bool) (socks : List Socket) :
    ∀ init : Nat, socks.foldl (fun sc s => if P s then sc + 2 else sc) init =
      init + 2 * (socks.filter P).length := by
  induction socks with
  | nil => intro init; simp
  | cons s rest ih =>
    intro init
    by_cases h : P s = true
    · simp [List.foldl_cons, List.filter_cons, h, ih]
      omega
    · simp [List.foldl_cons, List.filter_cons, h, ih]

theorem scoreNode_eq_amended (terms : List String) (nid : String) (profile : Profile) :
    scoreNode terms nid profile = scoreNodeAmended terms nid profile := by
  suffices h : ∀ (ts : List String) (init : Nat),
      ts.foldl (fun score term =>
        let term_lower := lowerStr term
        let score := if strContains (lowerStr profile.name) term_lower then score + 10 else score
        let score := if strContains (lowerStr (lowerStr nid)) (stripSpaces term_lower) then
          score + 5 else score
        let score := (profile.inputs ++ profile.outputs).foldl
          (fun sc s => if strContains (lowerStr s.name) term_lower then sc + 2 else sc) score
        let score := if strContains (profile.domain.getD "") term_lower then score + 3 else score
        score) init
      = init + (ts.map (fun term =>
          let term_lower := lowerStr term
          (if strContains (lowerStr profile.name) term_lower then 10 else 0) +
          (if strContains (lowerStr (lowerStr nid)) (stripSpaces term_lower) then 5 else 0) +
          2 * ((profile.inputs ++ profile.outputs).filter
            (fun s => strContains (lowerStr s.name) term_lower)).length +
          (if strContains (profile.domain.getD "") term_lower then 3 else 0))).sum by
    have h0 := h terms 0
    simpa [scoreNode, scoreNodeAmended] using h0
  intro ts
  induction ts with
  | nil => intro init; simp
  | cons t rest ih =>
    intro init
    rw [List.foldl_cons, ih, List.map_cons, List.sum_cons]
    have hsock := foldl_count2
      (fun s => strContains (lowerStr s.name) (lowerStr t)) (profile.inputs ++ profile.outputs)
    by_cases h1 : strContains (lowerStr profile.name) (lowerStr t) = true <;>
      by_cases h2 : strContains (lowerStr (lowerStr nid)) (stripSpaces (lowerStr t)) = true <;>
      by_cases h3 : strContains (profile.domain.getD "") (lowerStr t) = true <;>
      simp [h1, h2, h3, hsock] <;> omega

theorem search_accum_eq (terms : List String) (l : List (String × Profile)) :
    ∀ acc, l.foldl (fun acc p =>
      let score := scoreNode terms p.1 p.2
      if score > 0 then acc ++ [(p.1, score, p.2)] else acc) acc
    = acc ++ (l.filter (fun p => decide (0 < scoreNode terms p.1 p.2))).map
        (fun p => (p.1, scoreNode terms p.1 p.2, p.2)) := by
  induction l with
  | nil => intro acc; simp
  | cons p rest ih =>
    intro acc
    by_cases h : 0 < scoreNode terms p.1 p.2 <;>
      simp [List.foldl_cons, List.filter_cons, h, ih, gt_iff_lt]

/-- Claim C6 (amended): the code's retrieval equals the claim's
description with one change forced by the counterexample — the domain
contribution is a substring test, not an equality test.  All other parts
of the claim (weights 10/5/2 per port, zero-score exclusion, descending
stable order, truncation) hold as stated. -/
theorem search_nodes_matches_amended (kb : KB) (terms : List String) (max_results : Nat) :
    search_nodes kb terms max_results = search_nodes_amended kb terms max_results := by
  rw [search_nodes, search_nodes_amended, search_accum_eq]
  simp only [List.nil_append, scoreNode_eq_amended]

/-- Claim C6, counterexample: for the term `mesh` and an operator with
domain tag `mesh_ops` (no name/type/port hits), the claim's
equality-based domain rule scores 0 and excludes the operator, but the
code's substring-based domain rule scores 3 and returns it: the claim's
"the term equals the operator's domain tag" mis-describes the code. -/
theorem search_nodes_domain_not_equality_cex :
    search_nodes_claim kb6 ["mesh"] 20 = [] ∧
    (search_nodes kb6 ["mesh"] 20).map (fun r => (r.1, r.2.1)) = [("XNodeFoo", 3)] :=
  ⟨rfl, rfl⟩

/-! ## Claim C7 — context self-sufficiency of connection rules -/

theorem build_context_connections (kb : KB) (description : String) (max_nodes : Nat) :
    (build_context kb description max_nodes).connection_rules_valid =
      kb.valid_connections.filter (fun c =>
        (socketTypesUsed (search_nodes kb (extract_search_terms description) max_nodes)).contains c.src ||
        (socketTypesUsed (search_nodes kb (extract_search_terms description) max_nodes)).contains c.dst) :=
  rfl

theorem mem_insertDedup_of_mem (ts : List String) (t a : String) (h : a ∈ ts) :
    a ∈ insertDedup ts t := by
  rw [insertDedup]
  split
  · exact h
  · exact List.mem_append_left _ h

theorem mem_insertDedup_self (ts : List String) (t : String) : t ∈ insertDedup ts t := by
  rw [insertDedup]
  split
  · exact List.elem_iff.mp (by assumption)
  · exact List.mem_append_right _ (List.mem_singleton.mpr rfl)

theorem mem_sockFold_of_mem (socks : List Socket) :
    ∀ acc a, a ∈ acc → a ∈ socks.foldl (fun ac sk => insertDedup ac sk.type) acc := by
  induction socks with
  | nil => intro acc a h; exact h
  | cons sk rest ih =>
    intro acc a h
    exact ih _ a (mem_insertDedup_of_mem _ _ _ h)

theorem mem_sockFold_self (socks : List Socket) :
    ∀ acc s, s ∈ socks → s.type ∈ socks.foldl (fun ac sk => insertDedup ac sk.type) acc := by
  induction socks with
  | nil => intro acc s h; cases h
  | cons sk rest ih =>
    intro acc s h
    rcases List.mem_cons.mp h with rfl | h
    · exact mem_sockFold_of_mem rest _ _ (mem_insertDedup_self _ _)
    · exact ih _ s h

theorem matchFold_grow (ms : List (String × Nat × Profile)) :
    ∀ (acc : List String) (a : String), a ∈ acc → a ∈ ms.foldl (fun acc r =>
      r.2.2.outputs.foldl (fun a sk => insertDedup a sk.type)
        (r.2.2.inputs.foldl (fun a sk => insertDedup a sk.type) acc)) acc := by
  induction ms with
  | nil => exact fun _ _ h => h
  | cons m rest ih =>
    intro acc a h
    rw [List.foldl_cons]
    exact ih _ a (mem_sockFold_of_mem _ _ _ (mem_sockFold_of_mem _ _ _ h))

theorem mem_matchFold (ms : List (String × Nat × Profile))
    (nid : String) (sc : Nat) (profile : Profile) (hm : (nid, sc, profile) ∈ ms)
    (s : Socket) (hs : s ∈ profile.inputs ++ profile.outputs) :
    ∀ acc, s.type ∈ ms.foldl (fun acc r =>
      r.2.2.outputs.foldl (fun a sk => insertDedup a sk.type)
        (r.2.2.inputs.foldl (fun a sk => insertDedup a sk.type) acc)) acc := by
  induction ms with
  | nil => cases hm
  | cons m rest ih =>
    intro acc
    rw [List.foldl_cons]
    rcases List.mem_cons.mp hm with heq | hm2
    · subst heq
      apply matchFold_grow
      rcases List.mem_append.mp hs with hin | hout
      · exact mem_sockFold_of_mem _ _ _ (mem_sockFold_self _ _ _ hin)
      · exact mem_sockFold_self _ _ _ hout
    · exact ih hm2 _

theorem mem_socketTypesUsed (ms : List (String × Nat × Profile))
    (nid : String) (sc : Nat) (profile : Profile) (hm : (nid, sc, profile) ∈ ms)
    (s : Socket) (hs : s ∈ profile.inputs ++ profile.outputs) :
    s.type ∈ socketTypesUsed ms := by
  rw [socketTypesUsed]
  exact mem_insertDedup_of_mem _ _ _ (mem_matchFold ms nid sc profile hm s hs [])

/-- Claim C7 (amended): the context's connection rules cover the port
types of every RETRIEVED (scored) operator: every KB compatibility edge
whose source or destination type appears among a retrieved operator's
input or output socket types is included in the context.  (The
counterexample shows this does not extend to the auto-injected essential
utility operators, whose port types are collected nowhere.) -/
theorem context_covers_retrieved_port_types (kb : KB) (description : String)
    (max_nodes : Nat) (nid : String) (sc : Nat) (profile : Profile)
    (hmem : (nid, sc, profile) ∈ search_nodes kb (extract_search_terms description) max_nodes)
    (s : Socket) (hs : s ∈ profile.inputs ++ profile.outputs)
    (conn : Conn) (hconn : conn ∈ kb.valid_connections)
    (htouch : conn.src = s.type ∨ conn.dst = s.type) :
    conn ∈ (build_context kb description max_nodes).connection_rules_valid := by
  rw [build_context_connections]
  apply List.mem_filter.mpr
  refine ⟨hconn, ?_⟩
  have hty := mem_socketTypesUsed _ nid sc profile hmem s hs
  rcases htouch with h | h
  · simp only [Bool.or_eq_true, List.elem_iff]
    exact Or.inl (h ▸ hty)
  · simp only [Bool.or_eq_true, List.elem_iff]
    exact Or.inr (h ▸ hty)

/-- Claim C7, counterexample: for a description with no recognizable
terms, the context includes the auto-injected essential Set Position
operator with a `VECTOR` input port, and the KB records a
`VECTOR`→`VECTOR` compatibility edge — yet that edge is absent from the
context's connection rules, because the code collects socket types from
the retrieved operators only, before injecting the essentials.  The
context is therefore not self-sufficient for the injected operators. -/
theorem context_essential_types_uncovered_cex :
    (∃ p ∈ (build_context kbEss "" 15).matched_nodes,
      p.1 = "GeometryNodeSetPosition" ∧ (⟨"Position", "VECTOR"⟩ : Socket) ∈ p.2.inputs) ∧
    (⟨"VECTOR", "VECTOR"⟩ : Conn) ∈ kbEss.valid_connections ∧
    (⟨"VECTOR", "VECTOR"⟩ : Conn) ∉ (build_context kbEss "" 15).connection_rules_valid := by
  decide

/-- Witness for the amended C7 theorem: a description whose retrieval
scores the Set Position operator puts its `VECTOR` ports in scope, and
the `VECTOR`→`VECTOR` edge is then included in the context. -/
theorem context_covers_retrieved_port_types_witness :
    (⟨"VECTOR", "VECTOR"⟩ : Conn) ∈
      (build_context kbEss "move the points" 15).connection_rules_valid :=
  context_covers_retrieved_port_types kbEss "move the points" 15
    "GeometryNodeSetPosition" 15 pSetPosEss (by decide)
    ⟨"Position", "VECTOR"⟩ (by decide) ⟨"VECTOR", "VECTOR"⟩ (by decide) (by decide)

/-! ## Claim C4 — the retrieval-miss path -/

theorem build_context_matched_nodes (kb : KB) (description : String) (max_nodes : Nat) :
    (build_context kb description max_nodes).matched_nodes =
      essential_nodes.foldl (fun acc eid =>
        if (acc.find? (fun p => p.1 == eid)).isSome then acc
        else match lookupNode kb eid with
          | some profile => acc ++ [(eid, essentialSpec eid profile)]
          | none => acc)
        ((search_nodes kb (extract_search_terms description) max_nodes).map
          (fun r => (r.1, matchedSpec r.1 r.2.2))) :=
  rfl

theorem essFold_spec (kb : KB) (l : List String) :
    ∀ acc : List (String × NodeSpec),
      ∃ extra, l.foldl (fun acc eid =>
        if (acc.find? (fun p => p.1 == eid)).isSome then acc
        else match lookupNode kb eid with
          | some profile => acc ++ [(eid, essentialSpec eid profile)]
          | none => acc) acc = acc ++ extra
      ∧ ∀ x ∈ extra, x.1 ∈ l ∧ ∃ p, lookupNode kb x.1 = some p ∧ x.2 = essentialSpec x.1 p := by
  induction l with
  | nil => exact fun acc => ⟨[], by simp, by simp⟩
  | cons e rest ih =>
    intro acc
    rw [List.foldl_cons]
    by_cases hf : ((acc.find? (fun p => p.1 == e)).isSome : Bool) = true
    · obtain ⟨extra, heq, hx⟩ := ih acc
      rw [if_pos hf]
      exact ⟨extra, heq, fun x hx2 =>
        ⟨List.mem_cons_of_mem _ (hx x hx2).1, (hx x hx2).2⟩⟩
    · rw [if_neg hf]
      cases hlk : lookupNode kb e with
      | none =>
        obtain ⟨extra, heq, hx⟩ := ih acc
        exact ⟨extra, heq, fun x hx2 =>
          ⟨List.mem_cons_of_mem _ (hx x hx2).1, (hx x hx2).2⟩⟩
      | some p =>
        obtain ⟨extra, heq, hx⟩ := ih (acc ++ [(e, essentialSpec e p)])
        refine ⟨(e, essentialSpec e p) :: extra, by rw [heq, List.append_assoc]; rfl, ?_⟩
        intro x hx2
        rcases List.mem_cons.mp hx2 with rfl | hx3
        · exact ⟨List.mem_cons_self _ _, p, hlk, rfl⟩
        · exact ⟨List.mem_cons_of_mem _ (hx x hx3).1, (hx x hx3).2⟩

theorem join_noop_aux (ctx : Context) (description : String)
    (hjoinmem : "GeometryNodeJoinGeometry" ∈ ctx.matched_nodes.map (·.1))
    (hprops : ∀ x ∈ ctx.matched_nodes, x.1 ∈ essential_nodes ∧ x.2.role ≠ "generator") :
    generate_compositional_dag ctx description =
      (Builder.init description).wire "gin" "Geometry" "gout" "Geometry" := by
  have hsubE : ∀ a ∈ ctx.matched_nodes.map (·.1), a ∈ essential_nodes := by
    intro a ha
    obtain ⟨x, hx, rfl⟩ := List.mem_map.mp ha
    exact (hprops x hx).1
  have hD : (ctx.matched_nodes.map (·.1)).contains
      "GeometryNodeDistributePointsOnFaces" = false := by
    cases h : (ctx.matched_nodes.map (·.1)).contains "GeometryNodeDistributePointsOnFaces" with
    | false => rfl
    | true => exact absurd (hsubE _ (List.elem_iff.mp h)) (by decide)
  have hM : (ctx.matched_nodes.map (·.1)).contains "GeometryNodeMeshBoolean" = false := by
    cases h : (ctx.matched_nodes.map (·.1)).contains "GeometryNodeMeshBoolean" with
    | false => rfl
    | true => exact absurd (hsubE _ (List.elem_iff.mp h)) (by decide)
  have hJ : (ctx.matched_nodes.map (·.1)).contains "GeometryNodeJoinGeometry" = true :=
    List.elem_iff.mpr hjoinmem
  have hsel : selectIdiom (ctx.matched_nodes.map (·.1)) = some
      { name := "join_geometry"
        description := "Merge multiple geometry streams"
        trigger_nodes := ["GeometryNodeJoinGeometry"]
        optional_nodes := []
        build := "_build_join_geometry" } := by
    rw [selectIdiom]
    show IDIOMS.find? _ = _
    rw [IDIOMS, List.find?_cons_of_neg, List.find?_cons_of_neg, List.find?_cons_of_pos]
    · simp only [List.all_cons, List.all_nil, hJ, Bool.and_true]
    · simp only [List.all_cons, List.all_nil, hM, Bool.and_true]
      exact Bool.false_ne_true
    · simp only [List.all_cons, hD, Bool.false_and]
      exact Bool.false_ne_true
  have hgen : ctx.matched_nodes.filter (fun p => p.2.role == "generator") = [] := by
    rw [List.filter_eq_nil_iff]
    intro x hx
    simp only [beq_iff_eq]
    exact (hprops x hx).2
  rw [generate_compositional_dag]
  rw [hsel]
  show idiomBuilder "join_geometry" (Builder.init description) ctx.matched_nodes ctx = _
  rw [idiomBuilder]
  simp only [show (("join_geometry" == "scatter_instances") : Bool) = false from rfl,
    show (("join_geometry" == "boolean_op") : Bool) = false from rfl,
    show (("join_geometry" == "join_geometry") : Bool) = true from rfl,
    if_false, if_true, Bool.false_eq_true, Bool.true_eq_false]
  rw [_build_join_geometry]
  rw [hgen]
  rfl

/-- Claim C4 (amended): when retrieval scores no operator and the KB
contains the join operator (whose injected essential companions are not
generators, true of the real KB), the compositional path selects the
join-geometry idiom, whose merge-of-one no-op wires Input directly to
Output: the resulting graph has NO real node and exactly ONE edge.  The
claim's fixed-default single-operator chain is reached only when no
idiom triggers, i.e. when the KB lacks the join operator. -/
theorem retrieval_miss_join_noop (kb : KB) (description : String)
    (hsearch : search_nodes kb (extract_search_terms description) 15 = [])
    (hjoin : (lookupNode kb "GeometryNodeJoinGeometry").isSome = true)
    (hroles : ∀ eid ∈ essential_nodes,
      ((lookupNode kb eid).map (fun p => decide (p.role.getD "unknown" = "generator"))).getD
        false = false) :
    createCount (generate_compositional_lines (build_context kb description 15) description) = 0 ∧
    wiresOf (generate_compositional_lines (build_context kb description 15) description) =
      [("gin", "Geometry", "gout", "Geometry")] := by
  obtain ⟨pj, hpj⟩ := Option.isSome_iff_exists.mp hjoin
  have hmatched : (build_context kb description 15).matched_nodes =
      essential_nodes.foldl (fun acc eid =>
        if (acc.find? (fun p => p.1 == eid)).isSome then acc
        else match lookupNode kb eid with
          | some profile => acc ++ [(eid, essentialSpec eid profile)]
          | none => acc) [] := by
    rw [build_context_matched_nodes, hsearch]
    rfl
  obtain ⟨extra, hextra, hxprops⟩ := essFold_spec kb
    ["GeometryNodeRealizeInstances", "GeometryNodeSetPosition"]
    [("GeometryNodeJoinGeometry", essentialSpec "GeometryNodeJoinGeometry" pj)]
  have hmatched2 : (build_context kb description 15).matched_nodes =
      ("GeometryNodeJoinGeometry", essentialSpec "GeometryNodeJoinGeometry" pj) :: extra := by
    rw [hmatched]
    show (["GeometryNodeJoinGeometry", "GeometryNodeRealizeInstances",
        "GeometryNodeSetPosition"] : List String).foldl _ [] = _
    rw [List.foldl_cons]
    rw [show (if (([] : List (String × NodeSpec)).find?
        (fun p => p.1 == "GeometryNodeJoinGeometry")).isSome then ([] : List (String × NodeSpec))
      else match lookupNode kb "GeometryNodeJoinGeometry" with
        | some profile => [] ++ [("GeometryNodeJoinGeometry",
            essentialSpec "GeometryNodeJoinGeometry" profile)]
        | none => []) =
      [("GeometryNodeJoinGeometry", essentialSpec "GeometryNodeJoinGeometry" pj)] by
        rw [if_neg (by simp), hpj]
        rfl]
    rw [hextra]
    rfl
  have hprops : ∀ x ∈ (build_context kb description 15).matched_nodes,
      x.1 ∈ essential_nodes ∧ x.2.role ≠ "generator" := by
    intro x hx
    rw [hmatched2] at hx
    have hcore : x.1 ∈ essential_nodes ∧ ∃ p, lookupNode kb x.1 = some p ∧
        x.2 = essentialSpec x.1 p := by
      rcases List.mem_cons.mp hx with rfl | hx2
      · refine ⟨?_, pj, hpj, rfl⟩
        show "GeometryNodeJoinGeometry" ∈ essential_nodes
        decide
      · obtain ⟨h1, p, h2, h3⟩ := hxprops x hx2
        refine ⟨?_, p, h2, h3⟩
        have hsub2 : ∀ a ∈ (["GeometryNodeRealizeInstances",
            "GeometryNodeSetPosition"] : List String), a ∈ essential_nodes := by decide
        exact hsub2 _ h1
    obtain ⟨h1, p, h2, h3⟩ := hcore
    refine ⟨h1, ?_⟩
    have hrr := hroles x.1 h1
    rw [h2] at hrr
    simp at hrr
    rw [h3]
    exact hrr
  have hjoinmem : "GeometryNodeJoinGeometry" ∈
      (build_context kb description 15).matched_nodes.map (·.1) := by
    rw [hmatched2]
    exact List.mem_map.mpr ⟨_, List.mem_cons_self _ _, rfl⟩
  have hdag := join_noop_aux (build_context kb description 15) description hjoinmem hprops
  rw [generate_compositional_lines, hdag]
  exact ⟨rfl, rfl⟩

/-- Claim C4, counterexample: on a KB containing the join operator, a
description with no recognizable terms takes the RetrievalMiss path but
produces a graph with ZERO real nodes and ONE edge (Input wired straight
to Output) — not "exactly one real node and two edges" as claimed. -/
theorem retrieval_miss_not_single_default_cex :
    createCount (generate_compositional_lines (build_context kbEss "" 15) "") = 0 ∧
    wiresOf (generate_compositional_lines (build_context kbEss "" 15) "") =
      [("gin", "Geometry", "gout", "Geometry")] ∧
    ¬ (createCount (generate_compositional_lines (build_context kbEss "" 15) "") = 1 ∧
       (wiresOf (generate_compositional_lines (build_context kbEss "" 15) "")).length = 2) := by
  refine ⟨rfl, rfl, ?_⟩
  intro h
  exact absurd h.1 (by decide)

/-- Witness for the amended C4 theorem on the concrete essential-only KB
and the empty description. -/
theorem retrieval_miss_join_noop_witness :
    createCount (generate_compositional_lines (build_context kbEss "" 15) "") = 0 ∧
    wiresOf (generate_compositional_lines (build_context kbEss "" 15) "") =
      [("gin", "Geometry", "gout", "Geometry")] :=
  retrieval_miss_join_noop kbEss "" (by decide) (by decide) (by decide)

/-! ## Claim C10 — the join trigger always fires -/

theorem essFold_mem (kb : KB) (eid : String) (hlk : (lookupNode kb eid).isSome = true) :
    ∀ (l : List String) (acc : List (String × NodeSpec)), eid ∈ l →
      eid ∈ (l.foldl (fun acc eid =>
        if (acc.find? (fun p => p.1 == eid)).isSome then acc
        else match lookupNode kb eid with
          | some profile => acc ++ [(eid, essentialSpec eid profile)]
          | none => acc) acc).map (·.1) := by
  intro l
  induction l with
  | nil => intro acc h; cases h
  | cons e rest ih =>
    intro acc hmem
    rw [List.foldl_cons]
    rcases List.mem_cons.mp hmem with rfl | hrest
    · by_cases hf : ((acc.find? (fun p => p.1 == eid)).isSome : Bool) = true
      · rw [if_pos hf]
        obtain ⟨x, hx, hpx⟩ := List.find?_isSome.mp hf
        obtain ⟨extra, hextra, -⟩ := essFold_spec kb rest acc
        rw [hextra, List.map_append]
        apply List.mem_append_left
        exact List.mem_map.mpr ⟨x, hx, by simpa using hpx⟩
      · rw [if_neg hf]
        obtain ⟨p, hp⟩ := Option.isSome_iff_exists.mp hlk
        rw [hp]
        obtain ⟨extra, hextra, -⟩ := essFold_spec kb rest (acc ++ [(eid, essentialSpec eid p)])
        rw [hextra, List.map_append, List.map_append]
        exact List.mem_append_left _ (List.mem_append_right _ (by simp))
    · exact ih _ hrest

/-- Claim C10: whenever the KB's node catalog contains the join operator,
the context assembler's unconditional essential injection places its type
id among the matched candidates, so the join-geometry idiom's trigger set
is a subset of the candidate set; consequently `generate_compositional`
always selects some idiom (the match on `selectIdiom` takes the `some`
branch) and the linear fallback chain builder is never invoked. -/
theorem join_trigger_always_fires (kb : KB) (description : String)
    (hjoin : (lookupNode kb "GeometryNodeJoinGeometry").isSome = true) :
    "GeometryNodeJoinGeometry" ∈
      (build_context kb description 15).matched_nodes.map (·.1) ∧
    ∃ idiom ∈ IDIOMS,
      selectIdiom ((build_context kb description 15).matched_nodes.map (·.1)) = some idiom ∧
      generate_compositional_dag (build_context kb description 15) description =
        idiomBuilder idiom.name (Builder.init description)
          (build_context kb description 15).matched_nodes
          (build_context kb description 15) := by
  have hmem : "GeometryNodeJoinGeometry" ∈
      (build_context kb description 15).matched_nodes.map (·.1) := by
    rw [build_context_matched_nodes]
    exact essFold_mem kb "GeometryNodeJoinGeometry" hjoin essential_nodes _ (by decide)
  refine ⟨hmem, ?_⟩
  have hsome : (selectIdiom ((build_context kb description 15).matched_nodes.map (·.1))).isSome
      = true := by
    rw [selectIdiom]
    apply List.find?_isSome.mpr
    refine ⟨{ name := "join_geometry"
              description := "Merge multiple geometry streams"
              trigger_nodes := ["GeometryNodeJoinGeometry"]
              optional_nodes := []
              build := "_build_join_geometry" }, by decide, ?_⟩
    simp only [List.all_cons, List.all_nil, Bool.and_true]
    exact List.elem_iff.mpr hmem
  obtain ⟨idiom, hidiom⟩ := Option.isSome_iff_exists.mp hsome
  refine ⟨idiom, List.mem_of_find?_eq_some hidiom, hidiom, ?_⟩
  simp only [generate_compositional_dag, hidiom]

/-- Witness for C10 on the concrete essential-only KB. -/
theorem join_trigger_always_fires_witness :
    "GeometryNodeJoinGeometry" ∈
      (build_context kbEss "" 15).matched_nodes.map (·.1) ∧
    ∃ idiom ∈ IDIOMS,
      selectIdiom ((build_context kbEss "" 15).matched_nodes.map (·.1)) = some idiom ∧
      generate_compositional_dag (build_context kbEss "" 15) "" =
        idiomBuilder idiom.name (Builder.init "")
          (build_context kbEss "" 15).matched_nodes (build_context kbEss "" 15) :=
  join_trigger_always_fires kbEss "" (by decide)

/-! ## Claim C9 — determinism of `generate_script` -/

theorem generate_script_split (description : String) (kb : KB) (mesh_type timestamp : String) :
    (generate_script description kb mesh_type timestamp).1 =
      scriptPre description ++ timestamp ++ scriptPost description kb mesh_type := by
  simp only [generate_script, scriptPre, scriptPost, SCRIPT_HEADER_fmt]
  cases h : (build_context kb description 15).example_patterns with
  | nil => simp only [h, String.append_assoc]
  | cons best_pattern rest => simp only [h, String.append_assoc]

/-- Claim C9 (amended): synthesis is deterministic up to the embedded
generation timestamp: for any two calls with identical KB, description
and options, the returned context and generation method are identical,
and the serialized scripts are identical except for the timestamp spliced
into the header (the source embeds `datetime.now().isoformat()` there, so
two calls at different instants differ in exactly that substring). -/
theorem generate_script_deterministic_mod_timestamp (description : String) (kb : KB)
    (mesh_type t1 t2 : String) :
    (generate_script description kb mesh_type t1).2 =
      (generate_script description kb mesh_type t2).2 ∧
    (generate_script description kb mesh_type t1).1 =
      scriptPre description ++ t1 ++ scriptPost description kb mesh_type ∧
    (generate_script description kb mesh_type t2).1 =
      scriptPre description ++ t2 ++ scriptPost description kb mesh_type :=
  ⟨rfl, generate_script_split description kb mesh_type t1,
    generate_script_split description kb mesh_type t2⟩

/-- Claim C9, counterexample: two calls with the same KB snapshot, the
same description and the same options but made at different clock
readings produce different serialized output — the embedded timestamp
makes the scripts differ, so the output is not fully identical across
repeated calls. -/
theorem generate_script_not_time_invariant_cex :
    (generate_script "" kbEss "cube" "2026-10-12T00:00:00").1 ≠
      (generate_script "" kbEss "cube" "T2").1 := by
  intro h
  rw [generate_script_split "" kbEss "cube" "2026-10-12T00:00:00",
    generate_script_split "" kbEss "cube" "T2"] at h
  have hlen := congrArg String.length h
  simp only [String.length_append,
    show ("2026-10-12T00:00:00" : String).length = 19 from rfl,
    show ("T2" : String).length = 2 from rfl] at hlen
  omega
